import Mathlib

/-!
Verification of the replication task runner (`zettarepl/replication/run.py`).

The Python source is embedded shallowly: pure functions become Lean
functions, the stateful runner becomes explicit state passing over a
counter/context state, provider and transport calls become oracle data
supplied as inputs, and raised exceptions become explicit error values.
Machine behaviour that the runner cannot observe (actual ZFS state) is
represented by the listings the provider would have returned.
-/

namespace Zettarepl

/-- Readonly behaviour of a replication task
(`zettarepl.replication.task.readonly_behavior.ReadOnlyBehavior`). -/
inductive ReadOnlyBehavior
  | ignore
  | set
  | require
deriving DecidableEq

/-- Parsed snapshot: a snapshot name together with the datetime parsed from
it.  Modelled from the spec: snapshot-name parsing against naming schemas
(`zettarepl.snapshot.name`, not under `src/`) attaches a `(datetime, schema)`
to each name that matches a schema; we model a single effective schema, so a
parsed snapshot is the pair `(name, datetime)` and equality of parsed
snapshots is structural equality, matching the spec's `(name, schema)`
equality under one schema. -/
structure PS where
  name : String
  datetime : Nat
deriving DecidableEq

/-- Replication task data used by the runner.  Fields that are external
collaborators in the source (naming-schema parsing, the retention policy,
the per-snapshot should-replicate predicate) are modelled from the spec as
abstract task-supplied functions: the spec describes the retention policy as
"a pure function over a reference time and snapshot list -> set of snapshots
to delete" and the parser as dropping unparseable names. -/
structure RTask where
  id : Nat
  parse_name : String → Option Nat
  should_replicate_parsed : PS → Bool
  retention_policy : WithTop Nat → List PS → List PS → List PS
  allow_from_scratch : Bool
  readonly : ReadOnlyBehavior
  retries : Nat
  encryption : Bool

/-- Sort key order on parsed snapshots: Python sorts by the tuple
`(datetime, name)` (`parsed_snapshot_sort_key`, modelled from the spec). -/
def parsed_sort_lt (a b : PS) : Prop :=
  a.datetime < b.datetime ∨ (a.datetime = b.datetime ∧ a.name < b.name)

instance : DecidableRel parsed_sort_lt := fun a b =>
  inferInstanceAs (Decidable (a.datetime < b.datetime ∨
    (a.datetime = b.datetime ∧ a.name < b.name)))

/-- Non-strict companion of `parsed_sort_lt`, used as the sorting relation
(a stable sort by `<` on keys orders elements by `not (key b < key a)`). -/
def parsed_sort_le (a b : PS) : Prop := ¬ parsed_sort_lt b a

instance : DecidableRel parsed_sort_le := fun a b =>
  inferInstanceAs (Decidable (¬ parsed_sort_lt b a))

theorem parsed_sort_lt_trichotomy (a b : PS) :
    parsed_sort_lt a b ∨ a = b ∨ parsed_sort_lt b a := by
  rcases Nat.lt_trichotomy a.datetime b.datetime with h | h | h
  · exact Or.inl (Or.inl h)
  · rcases lt_trichotomy a.name b.name with h2 | h2 | h2
    · exact Or.inl (Or.inr ⟨h, h2⟩)
    · refine Or.inr (Or.inl ?_)
      cases a; cases b; simp_all
    · exact Or.inr (Or.inr (Or.inr ⟨h.symm, h2⟩))
  · exact Or.inr (Or.inr (Or.inl h))

theorem parsed_sort_lt_asymm {a b : PS} (h : parsed_sort_lt a b) :
    ¬ parsed_sort_lt b a := by
  rcases h with h | ⟨he, hn⟩
  · rintro (h2 | ⟨he2, _⟩)
    · exact absurd (Nat.lt_trans h h2) (Nat.lt_irrefl _)
    · exact absurd h (he2 ▸ Nat.lt_irrefl _)
  · rintro (h2 | ⟨_, hn2⟩)
    · exact absurd h2 (he ▸ Nat.lt_irrefl _)
    · exact absurd (lt_trans hn hn2) (lt_irrefl _)

theorem parsed_sort_lt_trans {a b c : PS} (h1 : parsed_sort_lt a b)
    (h2 : parsed_sort_lt b c) : parsed_sort_lt a c := by
  rcases h1 with h1 | ⟨he1, hn1⟩ <;> rcases h2 with h2 | ⟨he2, hn2⟩
  · exact Or.inl (Nat.lt_trans h1 h2)
  · exact Or.inl (he2 ▸ h1)
  · exact Or.inl (he1 ▸ h2)
  · exact Or.inr ⟨he1.trans he2, lt_trans hn1 hn2⟩

instance : IsTotal PS parsed_sort_le := by
  constructor
  intro a b
  rcases parsed_sort_lt_trichotomy a b with h | h | h
  · exact Or.inl (parsed_sort_lt_asymm h)
  · subst h
    refine Or.inl ?_
    rintro (h2 | ⟨_, hn⟩)
    · exact absurd h2 (Nat.lt_irrefl _)
    · exact absurd hn (lt_irrefl _)
  · exact Or.inr (parsed_sort_lt_asymm h)

instance : IsTrans PS parsed_sort_le := by
  constructor
  intro a b c hab hbc hca
  rcases parsed_sort_lt_trichotomy a b with h | h | h
  · exact hbc (parsed_sort_lt_trans hca h)
  · exact hbc (h ▸ hca)
  · exact hab h

theorem parsed_sort_le_of_ne {a b : PS} (h : parsed_sort_le a b) (hne : a ≠ b) :
    parsed_sort_lt a b := by
  rcases parsed_sort_lt_trichotomy a b with h2 | h2 | h2
  · exact h2
  · exact absurd h2 hne
  · exact absurd h2 h

/-- Parsing a list of raw snapshot names; names that do not parse are
dropped (`parse_snapshots_names_with_multiple_schemas`, modelled from the
spec with a single effective schema). -/
def parse_snapshots_names (task : RTask) (names : List String) : List PS :=
  names.filterMap (fun n => (task.parse_name n).map (fun d => ⟨n, d⟩))

/-- Maximum of a list of parsed snapshots under the sort key; models
`sorted(set(parsed_src) and set(parsed_dst), key=...)[-1]` taking the
greatest element (ties are impossible for distinct parsed snapshots under
one schema because the key contains the name). -/
def max_parsed (l : List PS) : Option PS :=
  l.foldl (fun acc p =>
    match acc with
    | none => some p
    | some q => if parsed_sort_lt q p then some p else some q) none

/-- Incremental base: greatest parsed snapshot common to source and
destination (`run.py` lines 520-528; the set intersection compares parsed
snapshots by equality). -/
def parsed_incremental_base (psrc pdst : List PS) : Option PS :=
  max_parsed (psrc.filter (fun p => pdst.any (fun q => decide (q = p))))

/-- Reference time for retention pre-pruning: greatest datetime among all
parsed source snapshots, or `datetime.max` (modelled as the top element)
when no source snapshot parses (`run.py` line 549). -/
def ref_time (psrc : List PS) : WithTop Nat :=
  match psrc.map PS.datetime with
  | [] => ⊤
  | d :: ds => (ds.foldl max d : Nat)

/-- Condition keeping a candidate snapshot: either there is no incremental
base, or the candidate is distinct from the base and the two-element stable
sort `sorted([snapshot, base], key)[0]` (whose head is the base exactly when
the base's key is strictly less) returns the base (`run.py` lines 533-541). -/
def newer_than_base (base : Option PS) (p : PS) : Bool :=
  match base with
  | none => true
  | some b => decide (p ≠ b) && decide ((if parsed_sort_lt b p then b else p) = b)

/-- Candidate send list before retention pre-pruning: parsed source
snapshots sorted ascending by the sort key, keeping those newer than the
incremental base that the task's should-replicate predicate accepts
(`run.py` lines 530-544, the first value of `snapshots_to_send`). -/
def send_candidates (src_snapshots dst_snapshots : List String) (task : RTask) :
    List PS :=
  let psrc := parse_snapshots_names task src_snapshots
  let pdst := parse_snapshots_names task dst_snapshots
  let base := parsed_incremental_base psrc pdst
  (List.insertionSort parsed_sort_le psrc).filter
    (fun p => newer_than_base base p && task.should_replicate_parsed p)

/-- Snapshots the retention policy would immediately delete, computed on the
candidate send list (`run.py` lines 547-550). -/
def will_be_removed (src_snapshots dst_snapshots : List String) (task : RTask) :
    List PS :=
  task.retention_policy (ref_time (parse_snapshots_names task src_snapshots))
    (send_candidates src_snapshots dst_snapshots task)
    (send_candidates src_snapshots dst_snapshots task)

/-- Final send list after retention pre-pruning, still as parsed snapshots
(`run.py` lines 551-553; Python membership `not in` compares by parsed
snapshot equality). -/
def send_pruned (src_snapshots dst_snapshots : List String) (task : RTask) :
    List PS :=
  (send_candidates src_snapshots dst_snapshots task).filter
    (fun p => !((will_be_removed src_snapshots dst_snapshots task).any
      (fun q => decide (q = p))))

/-- The planner `get_snapshots_to_send` (`run.py` lines 514-555): returns the
incremental base name, if any, and the names of the snapshots to send. -/
def get_snapshots_to_send (src_snapshots dst_snapshots : List String)
    (task : RTask) : Option String × List String :=
  let psrc := parse_snapshots_names task src_snapshots
  let pdst := parse_snapshots_names task dst_snapshots
  ((parsed_incremental_base psrc pdst).map PS.name,
   (send_pruned src_snapshots dst_snapshots task).map PS.name)

theorem parse_snapshots_names_nodup (task : RTask) {names : List String}
    (h : names.Nodup) : (parse_snapshots_names task names).Nodup := by
  refine List.Nodup.filterMap ?_ h
  intro a a' b hb hb'
  simp only [Option.mem_def, Option.map_eq_some'] at hb hb'
  rcases hb with ⟨d, _, hd⟩
  rcases hb' with ⟨d', _, hd'⟩
  have h1 : a = b.name := by rw [← hd]
  have h2 : a' = b.name := by rw [← hd']
  rw [h1, h2]

theorem pairwise_lt_of_le_nodup {l : List PS}
    (hs : List.Pairwise parsed_sort_le l) (hn : l.Nodup) :
    List.Pairwise parsed_sort_lt l := by
  induction l with
  | nil => exact List.Pairwise.nil
  | cons a l ih =>
    rcases List.pairwise_cons.1 hs with ⟨h1, h2⟩
    rcases List.nodup_cons.1 hn with ⟨h3, h4⟩
    exact List.pairwise_cons.2
      ⟨fun b hb => parsed_sort_le_of_ne (h1 b hb) (fun he => h3 (he ▸ hb)),
       ih h2 h4⟩

theorem send_candidates_pairwise (src dst : List String) (task : RTask)
    (hnd : src.Nodup) :
    (send_candidates src dst task).Pairwise parsed_sort_lt := by
  have hpsrc : (parse_snapshots_names task src).Nodup :=
    parse_snapshots_names_nodup task hnd
  have hsorted : List.Pairwise parsed_sort_le
      (List.insertionSort parsed_sort_le (parse_snapshots_names task src)) :=
    List.sorted_insertionSort parsed_sort_le _
  have hnodup : (List.insertionSort parsed_sort_le
      (parse_snapshots_names task src)).Nodup :=
    (List.perm_insertionSort parsed_sort_le _).symm.nodup hpsrc
  have hplt := pairwise_lt_of_le_nodup hsorted hnodup
  exact List.Pairwise.sublist (List.filter_sublist _) hplt

/-- The task of the C1 counterexample: two parseable snapshot names `a`
(datetime 1) and `b` (datetime 2), everything replicable, and a retention
policy that deletes the second element of a two-element list but keeps
shorter lists intact — a pure function of reference time and snapshot list,
as the spec requires of retention policies. -/
def c1_task : RTask where
  id := 1
  parse_name := fun n => if n = "a" then some 1 else if n = "b" then some 2 else none
  should_replicate_parsed := fun _ => true
  retention_policy := fun _ xs _ => if xs.length = 2 then xs.drop 1 else xs
  allow_from_scratch := true
  readonly := .ignore
  retries := 1
  encryption := false

/-- C1, counterexample.  With source snapshots `[a, b]` and no destination
snapshots, the planner's returned send list is `[a]` (the policy prunes `b`
from the two-element candidate list), yet evaluating the retention policy on
that *returned* list (as the claim literally states, `ref_time` unchanged)
deletes `a`.  The returned list therefore does contain a member of
`retention_policy(ref_time, snapshots_to_send, snapshots_to_send)` when
`snapshots_to_send` is read as the returned list: the pruning in the source
uses the pre-pruning candidate list, not the returned one. -/
theorem c1_retention_on_returned_list_fails :
    send_pruned ["a", "b"] [] c1_task = [⟨"a", 1⟩] ∧
    (⟨"a", 1⟩ : PS) ∈ c1_task.retention_policy
      (ref_time (parse_snapshots_names c1_task ["a", "b"]))
      (send_pruned ["a", "b"] [] c1_task)
      (send_pruned ["a", "b"] [] c1_task) := by
  constructor
  · rfl
  · decide

/-- C1 (amended): for source snapshot lists without duplicate names, the
planner's send list is strictly ascending under the parsed `(datetime, name)`
sort key, every element is strictly newer than the incremental base when one
exists, and no element belongs to
`retention_policy.calculate_delete_snapshots(ref_time, candidates,
candidates)` where `candidates` is the pre-pruning candidate send list (the
list the source actually evaluates the policy on) and `ref_time` is the
maximum datetime among all parsed source snapshots, or `datetime.max` if no
source snapshot parses. -/
theorem c1_planner_monotonicity (src dst : List String) (task : RTask)
    (hnd : src.Nodup) :
    (send_pruned src dst task).Pairwise parsed_sort_lt ∧
    (∀ p ∈ send_pruned src dst task, ∀ b,
      parsed_incremental_base (parse_snapshots_names task src)
        (parse_snapshots_names task dst) = some b → parsed_sort_lt b p) ∧
    (∀ p ∈ send_pruned src dst task, p ∉ will_be_removed src dst task) := by
  refine ⟨?_, ?_, ?_⟩
  · exact List.Pairwise.sublist (List.filter_sublist _)
      (send_candidates_pairwise src dst task hnd)
  · intro p hp b hb
    have hpc : p ∈ send_candidates src dst task :=
      (List.mem_filter.1 hp).1
    have hcond := (List.mem_filter.1 hpc).2
    rw [show send_candidates src dst task =
        (List.insertionSort parsed_sort_le (parse_snapshots_names task src)).filter
          (fun p => newer_than_base (parsed_incremental_base
              (parse_snapshots_names task src) (parse_snapshots_names task dst)) p
            && task.should_replicate_parsed p) from rfl] at hpc
    have hcond2 := (List.mem_filter.1 hpc).2
    rw [hb] at hcond2
    simp only [newer_than_base, Bool.and_eq_true, decide_eq_true_eq] at hcond2
    rcases hcond2 with ⟨⟨hne, hsel⟩, _⟩
    by_cases hlt : parsed_sort_lt b p
    · exact hlt
    · rw [if_neg hlt] at hsel
      exact absurd hsel hne
  · intro p hp hmem
    have h2 := (List.mem_filter.1 hp).2
    simp only [Bool.not_eq_true', List.any_eq_false] at h2
    exact h2 p hmem (decide_eq_true rfl)

/-- C1 witness: the amended theorem applied at the concrete counterexample
input, whose source list has no duplicates. -/
theorem c1_planner_monotonicity_witness :
    (["a", "b"] : List String).Nodup ∧
    ((send_pruned ["a", "b"] [] c1_task).Pairwise parsed_sort_lt ∧
    (∀ p ∈ send_pruned ["a", "b"] [] c1_task, ∀ b,
      parsed_incremental_base (parse_snapshots_names c1_task ["a", "b"])
        (parse_snapshots_names c1_task []) = some b → parsed_sort_lt b p) ∧
    (∀ p ∈ send_pruned ["a", "b"] [] c1_task,
      p ∉ will_be_removed ["a", "b"] [] c1_task)) :=
  ⟨by decide, c1_planner_monotonicity ["a", "b"] [] c1_task (by decide)⟩

/-!
State model of the runner.  Exceptions raised by the part body (`Err`),
outcomes of individual replication processes (`StepOutcome`), observer
events and provider effects (`Ev`), and the per-task global counters
(`GlobalReplicationContext`) keyed by step-template identity.
-/

/-- Exceptions that can escape the body of a task part.  The paramiko and
socket exception classes are modelled as constructors; `execErr` is the
provider's `ExecException` carrying its stdout. -/
inductive Err
  | replicationError (msg : String)
  | noIncrementalBase (msg : String)
  | recoverableError (msg : String)
  | execErr (stdout : String)
  | sockTimeout
  | noValidConnections (msg : String)
  | sshAuth (msg : String)
  | sshBadHostKey (msg : String)
  | sshProxyCommand (msg : String)
  | sshConfigParse (msg : String)
  | sshOther (msg : String)
  | ioErr (msg : String)
  | otherExc (msg : String)
deriving DecidableEq

/-- Outcome of one replication process run
(`ReplicationProcessRunner(process, monitor).run()`), supplied as oracle
data: the run either completes or raises an exception. -/
inductive StepOutcome
  | ok
  | fail (e : Err)
deriving DecidableEq

/-- Observer events and provider effects emitted by the runner, in emission
order.  Observer events record the global `snapshots_sent` and
`snapshots_total` sums at the moment of emission (`SnapshotStart`,
`SnapshotProgress` and `SnapshotSuccess` carry them in the source; for the
task lifecycle events we record the sums at emission so invariants over
"every observer event" can be stated). -/
inductive Ev
  | taskStart (tid : Nat) (sent total : Nat)
  | taskSuccess (tid : Nat) (sent total : Nat)
  | taskError (tid : Nat) (msg : String) (sent total : Nat)
  | snapshotStart (tid : Nat) (ds snap : String) (sent total : Nat)
  | snapshotProgress (tid : Nat) (ds snap : String) (sent total : Nat)
  | snapshotSuccess (tid : Nat) (ds snap : String) (sent total : Nat)
  | execCmd (argv : List String)
  | destroySnapshotsEv (ds : String) (names : List String)
  | createDatasetEv (name : String)
  | ensureHasNoDataEv (ds : String)
  | closeShellEv
  | sleepEv (seconds : Nat)
deriving DecidableEq

/-- One entry of the per-task global counters: the Python
`GlobalReplicationContext` holds two defaultdicts keyed by step template;
we merge them into one association list keyed by the template's object
identity, entries absent from the Python dicts contributing zero. -/
structure CEntry where
  key : Nat
  sent : Nat
  total : Nat
deriving DecidableEq

/-- Value of the two counters for a key (0 when absent, matching the
defaultdict). -/
def cGet : List CEntry → Nat → Nat × Nat
  | [], _ => (0, 0)
  | e :: es, k => if e.key = k then (e.sent, e.total) else cGet es k

/-- Update the counters at a key through `f`, inserting a zero entry first
when the key is absent (defaultdict behaviour). -/
def cMod (f : Nat × Nat → Nat × Nat) (k : Nat) : List CEntry → List CEntry
  | [] => [⟨k, (f (0, 0)).1, (f (0, 0)).2⟩]
  | e :: es =>
    if e.key = k then ⟨k, (f (e.sent, e.total)).1, (f (e.sent, e.total)).2⟩ :: es
    else e :: cMod f k es

/-- The global `snapshots_sent` property: sum of the per-template sent
counters. -/
def sentSum (es : List CEntry) : Nat := (es.map CEntry.sent).sum

/-- The global `snapshots_total` property: sum of the per-template total
counters. -/
def totalSum (es : List CEntry) : Nat := (es.map CEntry.total).sum

/-- Association-list lookup for the context dictionaries keyed by dataset
name. -/
def alGet {α : Type} : List (String × α) → String → Option α
  | [], _ => none
  | (k2, v) :: rest, k => if k2 = k then some v else alGet rest k

/-- Association-list update (dict assignment). -/
def alSet {α : Type} : List (String × α) → String → α → List (String × α)
  | [], k, v => [(k, v)]
  | (k2, v2) :: rest, k, v =>
    if k2 = k then (k, v) :: rest else (k2, v2) :: alSet rest k v

/-- Association-list removal (`dict.pop(key, None)`). -/
def alPop {α : Type} (m : List (String × α)) (k : String) : List (String × α) :=
  m.filter (fun e => decide (e.1 ≠ k))

/-- Prefix test on character lists. -/
def charsPrefix : List Char → List Char → Bool
  | [], _ => true
  | _ :: _, [] => false
  | p :: ps, c :: cs => decide (p = c) && charsPrefix ps cs

/-- Containment test on character lists: does the second list contain the
first as a contiguous run? -/
def charsContains (pat : List Char) : List Char → Bool
  | [] => pat.isEmpty
  | c :: cs => charsPrefix pat (c :: cs) || charsContains pat cs

/-- Substring test: Python's `needle in haystack` for the error markers. -/
def str_contains (s pat : String) : Bool := charsContains pat.data s.data

/-- Split a character list on slashes. -/
def splitSlash : List Char → List (List Char)
  | [] => [[]]
  | c :: rest =>
    let r := splitSlash rest
    if c = '/' then [] :: r
    else
      match r with
      | [] => [[c]]
      | g :: gs => (c :: g) :: gs

/-- Rejoin slash-separated components. -/
def joinSlash : List (List Char) → List Char
  | [] => []
  | [g] => g
  | g :: g2 :: gs => g ++ '/' :: joinSlash (g2 :: gs)

/-- Parent dataset name, as `os.path.dirname` acts on slash-separated
dataset paths: everything before the last slash, or the empty string when
there is none. -/
def dirname (s : String) : String :=
  let parts := splitSlash s.data
  if parts.length ≤ 1 then "" else ⟨joinSlash parts.dropLast⟩

/-- Dataset ancestry test.  Modelled from the spec:
`zettarepl.dataset.relationship.is_child` (not under `src/`): X is a child
of Y iff X equals Y or X starts with Y followed by a slash. -/
def is_child (x root : String) : Bool :=
  decide (x = root) || charsPrefix (root.data ++ ['/']) x.data

/-- A `ReplicationStepTemplate` (`run.py` lines 70-85).  The Python class
defines no `__eq__`/`__hash__`, so template equality — and the identity of
its global-counter entries — is object identity; `objId` models the object
identity, assigned fresh at each construction. -/
structure Tmpl where
  objId : Nat
  taskId : Nat
  src_dataset : String
  dst_dataset : String
deriving DecidableEq

/-- Python `==` (and dict-key equality) on `ReplicationStepTemplate`
values: default object identity, since the class defines no `__eq__`. -/
def tmplEq (a b : Tmpl) : Bool := a.objId == b.objId

/-- Construction of the step templates of one
`calculate_replication_step_templates` call: each `ReplicationStepTemplate(...)`
call allocates a fresh object, so consecutive object identities start at
`n`. -/
def build_templates (taskId : Nat) (pairs : List (String × String)) (n : Nat) :
    List Tmpl :=
  match pairs with
  | [] => []
  | (s, d) :: rest => ⟨n, taskId, s, d⟩ :: build_templates taskId rest (n + 1)

/-- Source-side `ReplicationContext` data consumed by the runner:
`datasets` maps each source dataset to its snapshot list. -/
structure SrcCtx where
  datasets : List (String × List String)

/-- Destination-side `ReplicationContext` data: dataset snapshot lists,
readonly flags and receive-resume tokens, as populated by
`calculate_replication_step_templates` from provider listings. -/
structure DstCtx where
  datasets : List (String × List String)
  datasets_readonly : List (String × Bool)
  datasets_receive_resume_tokens : List (String × Option String)

/-- Mutable state threaded through one part: the per-task counters, the
destination context and the remaining oracle stream of replication-process
outcomes.  Events are returned separately so emission order is explicit. -/
structure St where
  ctr : List CEntry
  dctx : DstCtx
  outcomes : List StepOutcome

/-- Next replication-process outcome from the oracle stream (an exhausted
stream means the remaining processes succeed). -/
def nextOutcome : List StepOutcome → StepOutcome × List StepOutcome
  | [] => (.ok, [])
  | o :: os => (o, os)

/-- The readonly handler `handle_readonly` (`run.py` lines 645-661): when
the task's readonly behaviour is SET or REQUIRE, clear an explicit
`readonly=off` on the destination when its parent is present in the
tracked map (`parent in datasets_readonly`) and the destination is tracked
as false; mark the destination readonly in the map; then set `readonly=on`
explicitly unless the parent is now tracked as readonly. -/
def handle_readonly (task : RTask) (t : Tmpl) (dctx : DstCtx) :
    DstCtx × List Ev :=
  if task.readonly = .set ∨ task.readonly = .require then
    let parent := dirname t.dst_dataset
    let ev1 : List Ev :=
      if (alGet dctx.datasets_readonly parent).isSome = true ∧
          alGet dctx.datasets_readonly t.dst_dataset = some false then
        [.execCmd ["zfs", "inherit", "readonly", t.dst_dataset]]
      else []
    let m2 := alSet dctx.datasets_readonly t.dst_dataset true
    let ev2 : List Ev :=
      if (alGet m2 parent).getD false = false then
        [.execCmd ["zfs", "set", "readonly=on", t.dst_dataset]]
      else []
    ({ dctx with datasets_readonly := m2 }, ev1 ++ ev2)
  else (dctx, [])

/-- One replication step `run_replication_step` (`run.py` lines 566-642):
emit `SnapshotStart`, unmount the destination (failures ignored), run the
replication process (oracle outcome; progress events carry the current
sums), and on success increment the template's sent counter, emit
`SnapshotSuccess`, and invoke the readonly handler when the step had no
incremental base (resume steps included). -/
def run_replication_step (task : RTask) (t : Tmpl) (snapLabel : String)
    (incremental_base : Option String) (st : St) :
    St × List Ev × Option Err :=
  let evs0 : List Ev :=
    [.snapshotStart task.id t.src_dataset snapLabel (sentSum st.ctr) (totalSum st.ctr),
     .execCmd ["zfs", "umount", t.dst_dataset]]
  let (o, rest) := nextOutcome st.outcomes
  match o with
  | .fail e => ({ st with outcomes := rest }, evs0, some e)
  | .ok =>
    let evProg : Ev :=
      .snapshotProgress task.id t.src_dataset snapLabel (sentSum st.ctr) (totalSum st.ctr)
    let ctr2 := cMod (fun p => (p.1 + 1, p.2)) t.objId st.ctr
    let evSucc : Ev :=
      .snapshotSuccess task.id t.src_dataset snapLabel (sentSum ctr2) (totalSum ctr2)
    let ro := if incremental_base = none then handle_readonly task t st.dctx
              else (st.dctx, [])
    ({ ctr := ctr2, dctx := ro.1, outcomes := rest },
     evs0 ++ [evProg, evSucc] ++ ro.2, none)

/-- Sequential sends of one plan entry, `replicate_snapshots` (`run.py`
lines 558-563): each successful snapshot becomes the incremental base of
the next; a failure propagates. -/
def replicate_snapshots (task : RTask) (t : Tmpl) (incremental_base : Option String)
    (snapshots : List String) (st : St) : St × List Ev × Option Err :=
  match snapshots with
  | [] => (st, [], none)
  | s :: rest =>
    let r1 := run_replication_step task t s incremental_base st
    match r1.2.2 with
    | some e => (r1.1, r1.2.1, some e)
    | none =>
      let r2 := replicate_snapshots task t (some s) rest r1.1
      (r2.1, r1.2.1 ++ r2.2.1, r2.2.2)

/-- The resumer `resume_replications` (`run.py` lines 370-417): for each
template whose destination exists and carries a receive-resume token, set
the template's total counter from the planner's send list (1 when it is
empty, with an "unknown snapshot" label), run a resume-mode step, and
either mark the run resumed and set both counters to exactly 1, or — when
the provider error's stdout shows the token is obsolete — abort the
receive with `zfs recv -A` and zero the total; any other error
propagates. -/
def resume_replications (task : RTask) (ts : List Tmpl) (sctx : SrcCtx)
    (st : St) (resumed : Bool) : St × List Ev × Bool × Option Err :=
  match ts with
  | [] => (st, [], resumed, none)
  | t :: rest =>
    if ((alGet st.dctx.datasets t.dst_dataset).isSome = true) ∧
        ((alGet st.dctx.datasets_receive_resume_tokens t.dst_dataset).getD none).isSome = true then
      let src_snapshots := (alGet sctx.datasets t.src_dataset).getD []
      let dst_snapshots := (alGet st.dctx.datasets t.dst_dataset).getD []
      let plan := get_snapshots_to_send src_snapshots dst_snapshots task
      let rsInfo : String × Nat :=
        match plan.2 with
        | [] => ("unknown snapshot", 1)
        | s :: ss => (s, ss.length + 1)
      let ctr1 := cMod (fun p => (p.1, rsInfo.2)) t.objId st.ctr
      let r := run_replication_step task t rsInfo.1 none { st with ctr := ctr1 }
      match r.2.2 with
      | none =>
        let ctr2 := cMod (fun _ => (1, 1)) t.objId r.1.ctr
        let r2 := resume_replications task rest sctx { r.1 with ctr := ctr2 } true
        (r2.1, r.2.1 ++ r2.2.1, r2.2.2.1, r2.2.2.2)
      | some (.execErr stdout) =>
        if str_contains stdout "used in the initial send no longer exists" ∨
            str_contains stdout "destination has snapshots" then
          let ctr2 := cMod (fun p => (p.1, 0)) t.objId r.1.ctr
          let r2 := resume_replications task rest sctx { r.1 with ctr := ctr2 } resumed
          (r2.1, r.2.1 ++ [.execCmd ["zfs", "recv", "-A", t.dst_dataset]] ++ r2.2.1,
           r2.2.2.1, r2.2.2.2)
        else (r.1, r.2.1, resumed, some (.execErr stdout))
      | some e => (r.1, r.2.1, resumed, some e)
    else
      resume_replications task rest sctx st resumed

/-- The token branch of `resume_replications` (`run.py` lines 379-417) with
the resume-step label and planned total already computed (`rs`), used to
state per-template facts about the resumer; `resume_replications` on a
template whose destination carries a token reduces to this body. -/
def resume_token_body (task : RTask) (sctx : SrcCtx) (t : Tmpl) (rest : List Tmpl)
    (st : St) (resumed : Bool) (rs : String × Nat) : St × List Ev × Bool × Option Err :=
  let ctr1 := cMod (fun p => (p.1, rs.2)) t.objId st.ctr
  let r := run_replication_step task t rs.1 none { st with ctr := ctr1 }
  match r.2.2 with
  | none =>
    let ctr2 := cMod (fun _ => (1, 1)) t.objId r.1.ctr
    let r2 := resume_replications task rest sctx { r.1 with ctr := ctr2 } true
    (r2.1, r.2.1 ++ r2.2.1, r2.2.2.1, r2.2.2.2)
  | some (.execErr stdout) =>
    if str_contains stdout "used in the initial send no longer exists" ∨
        str_contains stdout "destination has snapshots" then
      let ctr2 := cMod (fun p => (p.1, 0)) t.objId r.1.ctr
      let r2 := resume_replications task rest sctx { r.1 with ctr := ctr2 } resumed
      (r2.1, r.2.1 ++ [.execCmd ["zfs", "recv", "-A", t.dst_dataset]] ++ r2.2.1,
       r2.2.2.1, r2.2.2.2)
    else (r.1, r.2.1, resumed, some (.execErr stdout))
  | some e => (r.1, r.2.1, resumed, some e)

/-- One entry of the collected plan of `run_replication_steps`: a template,
its incremental base and its ordered send list (encryption recipes are
carried in the source but play no role in the verified claims and are
omitted). -/
structure PlanEntry where
  t : Tmpl
  incremental_base : Option String
  snapshots : List String

/-- Message of the require-readonly gate error (the source interpolates the
dataset name with `!r`; the wording, typo included, follows the source). -/
def readonly_gate_msg (dst : String) : String :=
  "Target dataset " ++ dst ++ " exists and does hot have readonly=on property, " ++
    "but replication task is set up to require this property. Refusing to replicate."

/-- Require-readonly gate (`run.py` lines 421-427): when the task requires
readonly, fail on the first template whose destination is tracked with a
falsy readonly value (absent datasets default to true). -/
def readonly_gate (task : RTask) (ts : List Tmpl) (dctx : DstCtx) : Option Err :=
  if task.readonly = .require then
    match ts.find? (fun t => !((alGet dctx.datasets_readonly t.dst_dataset).getD true)) with
    | some t => some (.replicationError (readonly_gate_msg t.dst_dataset))
    | none => none
  else none

/-- Planning state of `run_replication_steps`: runtime state, the roots
whose descendants are skipped, and the plan collected so far. -/
structure PlanSt where
  st : St
  ignored_roots : List String
  plan : List PlanEntry

/-- Message of `NoIncrementalBaseReplicationError` (`run.py` lines
460-463). -/
def no_base_msg (src : String) : String :=
  "No incremental base on dataset " ++ src ++
    " and replication from scratch is not allowed"

/-- The incremental-base branch of the planning loop (`run.py` lines
448-487): with no incremental base, either destroy all destination
snapshots (allow-from-scratch), raise `NoIncrementalBaseReplicationError`,
or, for an empty immediate target when from-scratch replication is not
allowed, verify it holds no data (`ensure_has_no_data`, an external
provider check modelled by the `ef` oracle listing the datasets on which
it raises). -/
def plan_branch (task : RTask) (t : Tmpl) (dst_snapshots : List String)
    (base : Option String) (ef : List String) (is_first : Bool) :
    List Ev × Option Err :=
  if base = none then
    if dst_snapshots ≠ [] then
      if task.allow_from_scratch then
        ([.destroySnapshotsEv t.dst_dataset dst_snapshots], none)
      else ([], some (.noIncrementalBase (no_base_msg t.src_dataset)))
    else
      if ¬ task.allow_from_scratch ∧ is_first then
        if t.dst_dataset ∈ ef then
          ([.ensureHasNoDataEv t.dst_dataset],
           some (.replicationError ("Target dataset " ++ t.dst_dataset ++
             " already exists and has data")))
        else ([.ensureHasNoDataEv t.dst_dataset], none)
      else ([], none)
  else ([], none)

/-- Parent-dataset creation before the first send into a destination that
does not yet exist (`run.py` lines 496-500). -/
def plan_parent_evs (t : Tmpl) (dctx : DstCtx) (is_first : Bool) : List Ev :=
  if is_first ∧ (alGet dctx.datasets t.dst_dataset).isNone = true then
    if str_contains (dirname t.dst_dataset) "/" then
      [.createDatasetEv (dirname t.dst_dataset)]
    else []
  else []

/-- Planning loop of `run_replication_steps` (`run.py` lines 429-507): per
template — skipping descendants of ignored roots — consult the planner and
run the incremental-base branch; skip templates with nothing to send
(remembering snapshot-less roots); create the missing parent of a new
immediate target; account the send list in the total counter and append to
the plan.  `is_first` tracks `i == 0` of the source's `enumerate`. -/
def plan_templates (task : RTask) (sctx : SrcCtx) (ts : List Tmpl)
    (ef : List String) (is_first : Bool) (ps : PlanSt) :
    PlanSt × List Ev × Option Err :=
  match ts with
  | [] => (ps, [], none)
  | t :: rest =>
    if ps.ignored_roots.any (fun root => is_child t.src_dataset root) then
      plan_templates task sctx rest ef false ps
    else
      let src_snapshots := (alGet sctx.datasets t.src_dataset).getD []
      let dst_snapshots := (alGet ps.st.dctx.datasets t.dst_dataset).getD []
      let plan := get_snapshots_to_send src_snapshots dst_snapshots task
      let branch := plan_branch task t dst_snapshots plan.1 ef is_first
      match branch.2 with
      | some e => (ps, branch.1, some e)
      | none =>
        if plan.2 = [] then
          let ig2 := if src_snapshots = [] then t.src_dataset :: ps.ignored_roots
                     else ps.ignored_roots
          let r := plan_templates task sctx rest ef false
            { ps with ignored_roots := ig2 }
          (r.1, branch.1 ++ r.2.1, r.2.2)
        else
          let parentEvs := plan_parent_evs t ps.st.dctx is_first
          let ctr2 := cMod (fun p => (p.1, p.2 + plan.2.length)) t.objId ps.st.ctr
          let r := plan_templates task sctx rest ef false
            { st := { ps.st with ctr := ctr2 },
              ignored_roots := ps.ignored_roots,
              plan := ps.plan ++ [⟨t, plan.1, plan.2⟩] }
          (r.1, branch.1 ++ parentEvs ++ r.2.1, r.2.2)

/-- Execution loop of `run_replication_steps` (`run.py` lines 509-511):
replicate each plan entry's snapshots, then run the readonly handler for
its template; a failure propagates. -/
def execute_plan (task : RTask) (plan : List PlanEntry) (st : St) :
    St × List Ev × Option Err :=
  match plan with
  | [] => (st, [], none)
  | e :: rest =>
    let r1 := replicate_snapshots task e.t e.incremental_base e.snapshots st
    match r1.2.2 with
    | some err => (r1.1, r1.2.1, some err)
    | none =>
      let ro := handle_readonly task e.t r1.1.dctx
      let r2 := execute_plan task rest { r1.1 with dctx := ro.1 }
      (r2.1, r1.2.1 ++ ro.2 ++ r2.2.1, r2.2.2)

/-- `run_replication_steps` (`run.py` lines 420-511): require-readonly
gate, planning phase, then execution phase. -/
def run_replication_steps (task : RTask) (ts : List Tmpl) (sctx : SrcCtx)
    (ensure_fails : List String) (st : St) : St × List Ev × Option Err :=
  match readonly_gate task ts st.dctx with
  | some e => (st, [], some e)
  | none =>
    let r1 := plan_templates task sctx ts ensure_fails true ⟨st, [], []⟩
    match r1.2.2 with
    | some e => (r1.1.st, r1.2.1, some e)
    | none =>
      let r2 := execute_plan task r1.1.plan r1.1.st
      (r2.1, r1.2.1 ++ r2.2.1, r2.2.2)

/-- Provider listings consumed by one
`calculate_replication_step_templates` call, supplied as oracle data: the
source and destination context maps and the `(src, dst)` dataset pairs of
the emitted templates. -/
structure CtxData where
  src_datasets : List (String × List String)
  dst_datasets : List (String × List String)
  dst_readonly : List (String × Bool)
  dst_tokens : List (String × Option String)
  template_pairs : List (String × String)

/-- Oracle data for one attempt of a task part: property reads, the
encrypted-target disposal inputs, the two listings (the second used after a
resume), the datasets on which `ensure_has_no_data` would raise, and the
stream of replication-process outcomes. -/
structure AttemptData where
  src_type : String
  dst_type : Option String
  root_dst : String
  enc_supported : Bool
  encryption_prop : String
  encryptionroot_prop : String
  mounted : Bool
  has_data : Bool
  listing1 : CtxData
  listing2 : CtxData
  ensure_fails : List String
  outcomes : List StepOutcome

instance : Inhabited AttemptData :=
  ⟨⟨"filesystem", none, "", false, "off", "", false, false,
    ⟨[], [], [], [], []⟩, ⟨[], [], [], [], []⟩, [], []⟩⟩

/-- `check_target_type` (`run.py` lines 238-250): a destination that exists
with a different `type` property than the source is a terminal error; a
missing destination is fine. -/
def check_target_type (a : AttemptData) : Option Err :=
  match a.dst_type with
  | none => none
  | some dt =>
    if a.src_type ≠ dt then
      some (.replicationError ("Source is a " ++ a.src_type ++
        ", but target " ++ a.root_dst ++ " already exists and is a " ++ dt))
    else none

/-- `destroy_empty_encrypted_target` (`run.py` lines 253-295): when the
target dataset exists, encryption properties are readable, encryption was
requested but the target is unencrypted — terminal error; targets with
snapshots, a resume token, or `encryption=off` are left alone; a target
that is its own encryption root is a terminal error; otherwise an empty
mounted target is destroyed and dropped from the context maps. -/
def destroy_empty_encrypted_target (task : RTask) (a : AttemptData) (st : St) :
    St × List Ev × Option Err :=
  match alGet st.dctx.datasets a.root_dst with
  | none => (st, [], none)
  | some snaps =>
    if ¬ a.enc_supported then (st, [], none)
    else if task.encryption ∧ a.encryption_prop = "off" then
      (st, [], some (.replicationError ("Encryption requested for destination dataset " ++
        a.root_dst ++ ", but it already exists and is not encrypted.")))
    else if snaps ≠ [] then (st, [], none)
    else if ((alGet st.dctx.datasets_receive_resume_tokens a.root_dst).getD none).isSome = true then
      (st, [], none)
    else if a.encryption_prop = "off" then (st, [], none)
    else if a.encryptionroot_prop = a.root_dst then
      (st, [], some (.replicationError ("Destination dataset " ++ a.root_dst ++
        " already exists and is its own encryption root. This configuration is not " ++
        "supported yet. If you want to replicate into an encrypted dataset, please, " ++
        "encrypt its parent dataset.")))
    else if ¬ a.mounted then (st, [], none)
    else if a.has_data then (st, [], none)
    else
      ({ st with dctx := { st.dctx with
           datasets := alPop st.dctx.datasets a.root_dst,
           datasets_readonly := alPop st.dctx.datasets_readonly a.root_dst } },
       [.execCmd ["zfs", "destroy", a.root_dst]], none)

/-- Contexts built from one listing. -/
def mk_ctxs (c : CtxData) : SrcCtx × DstCtx :=
  (⟨c.src_datasets⟩, ⟨c.dst_datasets, c.dst_readonly, c.dst_tokens⟩)

/-- Per-task world: the global counters and the next fresh object
identity for step templates. -/
structure World where
  ctr : List CEntry
  nextId : Nat

/-- The body of one task part, `run_replication_task_part` (`run.py` lines
214-235): check target type, build step templates from the first listing,
dispose of an empty encrypted target, attempt resumes, rebuild templates
from the second listing when something resumed, then run the replication
steps.  (The `DatasetSizeObserver` bracket emits periodic data-progress
events from a background timer and is not modelled.) -/
def run_replication_task_part (task : RTask) (a : AttemptData) (w : World) :
    World × List Ev × Option Err :=
  match check_target_type a with
  | some e => (w, [], some e)
  | none =>
    let ts1 := build_templates task.id a.listing1.template_pairs w.nextId
    let w1 : World := { w with nextId := w.nextId + a.listing1.template_pairs.length }
    let ctxs1 := mk_ctxs a.listing1
    let st0 : St := ⟨w1.ctr, ctxs1.2, a.outcomes⟩
    let r1 := destroy_empty_encrypted_target task a st0
    match r1.2.2 with
    | some e => ({ w1 with ctr := r1.1.ctr }, r1.2.1, some e)
    | none =>
      let r2 := resume_replications task ts1 ctxs1.1 r1.1 false
      match r2.2.2.2 with
      | some e => ({ w1 with ctr := r2.1.ctr }, r1.2.1 ++ r2.2.1, some e)
      | none =>
        if r2.2.2.1 then
          let ts2 := build_templates task.id a.listing2.template_pairs w1.nextId
          let w2 : World := { w1 with nextId := w1.nextId + a.listing2.template_pairs.length }
          let ctxs2 := mk_ctxs a.listing2
          let r3 := run_replication_steps task ts2 ctxs2.1 a.ensure_fails
            ⟨r2.1.ctr, ctxs2.2, r2.1.outcomes⟩
          ({ w2 with ctr := r3.1.ctr }, r1.2.1 ++ r2.2.1 ++ r3.2.1, r3.2.2)
        else
          let r3 := run_replication_steps task ts1 ctxs1.1 a.ensure_fails r2.1
          ({ w1 with ctr := r3.1.ctr }, r1.2.1 ++ r2.2.1 ++ r3.2.1, r3.2.2)

/-- Left-to-right non-overlapping replacement of all occurrences of `pat`
by `sub` on character lists (Python `str.replace`); the fuel argument, set
to the list length, only serves structural recursion. -/
def replaceCharsFuel (pat sub : List Char) : Nat → List Char → List Char
  | _, [] => []
  | 0, l => l
  | fuel + 1, c :: cs =>
    if charsPrefix pat (c :: cs) ∧ pat ≠ [] then
      sub ++ replaceCharsFuel pat sub fuel (List.drop (pat.length - 1) cs)
    else c :: replaceCharsFuel pat sub fuel cs

/-- Python's `str(e).replace("[Errno None] ", "")` normalization applied to
paramiko error messages. -/
def strip_errno (m : String) : String :=
  ⟨replaceCharsFuel "[Errno None] ".data [] m.data.length m.data⟩

/-- Result of the exception-mapping `try/except` chain around the part body
(`run.py` lines 152-171) combined with the outer handlers (lines 176-189):
an error is either recoverable (retry; `closed_shell` records whether the
remote shell was reset first), terminal (`ReplicationError`), or unhandled
(any other exception). -/
inductive Classified
  | recov (msg : String) (closed_shell : Bool)
  | term (msg : String)
  | unhandled (msg : String)
deriving DecidableEq

/-- Python `str(e)` for the modelled exceptions. -/
def err_str : Err → String
  | .replicationError m => m
  | .noIncrementalBase m => m
  | .recoverableError m => m
  | .execErr s => s
  | .sockTimeout => "timed out"
  | .noValidConnections m => m
  | .sshAuth m => m
  | .sshBadHostKey m => m
  | .sshProxyCommand m => m
  | .sshConfigParse m => m
  | .sshOther m => m
  | .ioErr m => m
  | .otherExc m => m

/-- Classification of an exception escaping the part body (`run.py` lines
152-171): socket timeouts, paramiko `NoValidConnectionsError`, paramiko
`SSHException`s other than authentication / bad host key / proxy command /
config parse, and `IOError`/`OSError` map to recoverable errors — the
generic-`SSHException` case closing the remote shell first; the four named
SSH failures map to terminal `ReplicationError`s; `RecoverableReplicationError`
and `ReplicationError` (with its `NoIncrementalBaseReplicationError`
subclass) raised by the body pass through; anything else is unhandled. -/
def classify : Err → Classified
  | .sockTimeout => .recov "Network connection timeout" false
  | .noValidConnections m => .recov (strip_errno m) false
  | .sshAuth m => .term (strip_errno m)
  | .sshBadHostKey m => .term (strip_errno m)
  | .sshProxyCommand m => .term (strip_errno m)
  | .sshConfigParse m => .term (strip_errno m)
  | .sshOther m => .recov (strip_errno m) true
  | .ioErr m => .recov m false
  | .recoverableError m => .recov m false
  | .replicationError m => .term m
  | .noIncrementalBase m => .term m
  | .execErr s => .unhandled s
  | .otherExc m => .unhandled m

/-- Outcome of the retry loop for one part. -/
inductive PartResult
  | okPart
  | failedPart
deriving DecidableEq

/-- Python `str(recoverable_error)` in the loop's `else` clause
(`recoverable_error` is `None` when `retries` is 0). -/
def opt_msg : Option String → String
  | none => "None"
  | some m => m

/-- The retry loop around one part (`run.py` lines 142-194): up to
`retries` attempts; before each retry after a recoverable failure, sleep
the current backoff and double it capped at 60; a recoverable failure
retries, a terminal or unhandled error emits `TaskError` and fails the
part, and exhausting the attempts emits one `TaskError` with the last
recoverable error's message.  The body is abstract: attempt `i` maps a
world to a new world, emitted events and an optional escaping exception. -/
def retry_go (body : Nat → World → World × List Ev × Option Err) (taskId : Nat)
    (attempt : Nat) (fuel : Nat) (recov_err : Option String) (recov_sleep : Nat)
    (w : World) : World × List Ev × PartResult :=
  match fuel with
  | 0 =>
    (w, [.taskError taskId (opt_msg recov_err) (sentSum w.ctr) (totalSum w.ctr)],
     .failedPart)
  | fuel + 1 =>
    let pre : List Ev × Nat :=
      match recov_err with
      | some _ => ([.sleepEv recov_sleep], min (recov_sleep * 2) 60)
      | none => ([], 1)
    let r := body attempt w
    match r.2.2 with
    | none => (r.1, pre.1 ++ r.2.1, .okPart)
    | some e =>
      match classify e with
      | .recov msg closed =>
        let evClose : List Ev := if closed then [.closeShellEv] else []
        let r2 := retry_go body taskId (attempt + 1) fuel (some msg) pre.2 r.1
        (r2.1, pre.1 ++ r.2.1 ++ evClose ++ r2.2.1, r2.2.2)
      | .term msg =>
        (r.1, pre.1 ++ r.2.1 ++
          [.taskError taskId msg (sentSum r.1.ctr) (totalSum r.1.ctr)], .failedPart)
      | .unhandled msg =>
        (r.1, pre.1 ++ r.2.1 ++
          [.taskError taskId msg (sentSum r.1.ctr) (totalSum r.1.ctr)], .failedPart)

/-- The parts loop of `run_replication_tasks` (`run.py` lines 109-194)
specialised to the parts of a single task, which share one
`GlobalReplicationContext`: parts of a failed task are skipped, the first
part emits `TaskStart`, each part runs under the retry loop, and when the
last part succeeds `TaskSuccess` is emitted. -/
def run_task_parts (task : RTask) (parts : List (List AttemptData))
    (started failed : Bool) (parts_left : Nat) (w : World) :
    World × List Ev × Bool :=
  match parts with
  | [] => (w, [], failed)
  | attempts :: rest =>
    if failed then run_task_parts task rest started failed parts_left w
    else
      let evStart : List Ev :=
        if started then []
        else [.taskStart task.id (sentSum w.ctr) (totalSum w.ctr)]
      let r := retry_go
        (fun i w => run_replication_task_part task (attempts.getD i default) w)
        task.id 0 task.retries none 1 w
      match r.2.2 with
      | .okPart =>
        let evSucc : List Ev :=
          if parts_left - 1 = 0 then
            [.taskSuccess task.id (sentSum r.1.ctr) (totalSum r.1.ctr)]
          else []
        let r2 := run_task_parts task rest true failed (parts_left - 1) r.1
        (r2.1, evStart ++ r.2.1 ++ evSucc ++ r2.2.1, r2.2.2)
      | .failedPart =>
        let r2 := run_task_parts task rest true true parts_left r.1
        (r2.1, evStart ++ r.2.1 ++ r2.2.1, r2.2.2)

/-- A whole single-task run: fresh counters and object identities, one
entry of the parts loop per source dataset of the task. -/
def run_task (task : RTask) (parts : List (List AttemptData)) :
    World × List Ev × Bool :=
  run_task_parts task parts false false parts.length ⟨[], 0⟩

/-- A neutral task used to instantiate concrete scenarios. -/
def base_task : RTask where
  id := 1
  parse_name := fun _ => none
  should_replicate_parsed := fun _ => true
  retention_policy := fun _ _ _ => []
  allow_from_scratch := true
  readonly := .ignore
  retries := 1
  encryption := false

theorem build_templates_length (taskId : Nat) (pairs : List (String × String))
    (n : Nat) : (build_templates taskId pairs n).length = pairs.length := by
  induction pairs generalizing n with
  | nil => rfl
  | cons p rest ih =>
    obtain ⟨s, d⟩ := p
    simp [build_templates, ih]

theorem build_templates_get_objId (taskId : Nat) (pairs : List (String × String))
    (n i : Nat) (hi : i < (build_templates taskId pairs n).length) :
    ((build_templates taskId pairs n).get ⟨i, hi⟩).objId = n + i := by
  induction pairs generalizing n i with
  | nil => simp [build_templates] at hi
  | cons p rest ih =>
    obtain ⟨s, d⟩ := p
    match i with
    | 0 => rfl
    | i + 1 =>
      have h2 : i < (build_templates taskId rest (n + 1)).length := by
        simpa [build_templates] using hi
      have := ih (n + 1) i h2
      simpa [build_templates, List.get, Nat.add_assoc, Nat.add_comm 1 i] using this

/-- C9, counterexample.  `ReplicationStepTemplate` defines no
`__eq__`/`__hash__`, so Python equality is object identity: two distinct
template instances sharing the `(task.id, src_dataset, dst_dataset)` triple
`(1, a, b)` are not equal, and bumping the counter entry of one leaves the
entry of the other at zero — they do not index the same counter entry, so
the claimed "equal iff same triple" fails in the right-to-left direction. -/
theorem c9_same_triple_not_equal :
    tmplEq ⟨0, 1, "a", "b"⟩ ⟨1, 1, "a", "b"⟩ = false ∧
    cGet (cMod (fun p => (p.1 + 1, p.2)) (0 : Nat) []) 1 = (0, 0) := by decide

/-- C9 (amended): two `ReplicationStepTemplate` values are equal iff they
are the same object (same object identity), and templates created by
distinct constructor calls of one `calculate_replication_step_templates`
run are never equal — even when their `(task.id, src_dataset, dst_dataset)`
triples coincide — so each indexes its own entry of the global counter
maps. -/
theorem c9_template_identity (a b : Tmpl) :
    (tmplEq a b = true ↔ a.objId = b.objId) ∧
    (∀ (taskId : Nat) (pairs : List (String × String)) (n i j : Nat)
      (hi : i < (build_templates taskId pairs n).length)
      (hj : j < (build_templates taskId pairs n).length), i ≠ j →
      tmplEq ((build_templates taskId pairs n).get ⟨i, hi⟩)
        ((build_templates taskId pairs n).get ⟨j, hj⟩) = false) := by
  constructor
  · simp [tmplEq]
  · intro taskId pairs n i j hi hj hne
    simp only [tmplEq, build_templates_get_objId, beq_eq_false_iff_ne, ne_eq]
    omega

/-- C9 witness: the amended theorem applied to two templates built at
positions 0 and 1 from identical `(src, dst)` pairs. -/
theorem c9_template_identity_witness :
    (0 : Nat) ≠ 1 ∧
    tmplEq ((build_templates 1 [("a", "b"), ("a", "b")] 0).get ⟨0, by decide⟩)
      ((build_templates 1 [("a", "b"), ("a", "b")] 0).get ⟨1, by decide⟩) = false :=
  ⟨by decide,
   (c9_template_identity ⟨0, 1, "a", "b"⟩ ⟨0, 1, "a", "b"⟩).2 1
     [("a", "b"), ("a", "b")] 0 0 1 (by decide) (by decide) (by decide)⟩

theorem alGet_alSet_self {α : Type} (m : List (String × α)) (k : String) (v : α) :
    alGet (alSet m k v) k = some v := by
  induction m with
  | nil => simp [alSet, alGet]
  | cons e rest ih =>
    obtain ⟨k2, v2⟩ := e
    by_cases h : k2 = k
    · simp [alSet, alGet, h]
    · simp [alSet, alGet, h, ih]

/-- C8, counterexample.  In the tracked state where the parent `p` of the
destination `p/d` is present with `readonly=false` and `p/d` is tracked
`readonly=false`, `handle_readonly` with `task.readonly=SET` executes
`zfs inherit readonly p/d` even though the parent is *not* tracked as
readonly: the source only tests membership of the parent in
`datasets_readonly`, not its value, so "inherit exactly when the parent is
tracked as readonly" fails. -/
theorem c8_inherit_without_readonly_parent :
    (handle_readonly { base_task with readonly := .set } ⟨0, 1, "t/d", "p/d"⟩
        ⟨[], [("p", false), ("p/d", false)], []⟩).2 =
      [.execCmd ["zfs", "inherit", "readonly", "p/d"],
       .execCmd ["zfs", "set", "readonly=on", "p/d"]] ∧
    alGet [("p", false), ("p/d", false)] (dirname "p/d") ≠ some true := by
  constructor
  · rfl
  · decide

/-- C8 (amended): after a template's send list finishes with
`task.readonly` in SET or REQUIRE, `zfs inherit readonly` is executed on
the destination exactly when the parent is *present* in
`datasets_readonly` (with either value) while the destination is tracked
as `readonly=false`; the destination is then recorded as `readonly=true`;
and `zfs set readonly=on` is executed exactly when, after that recording,
the parent is not recorded as readonly.  In particular, after the handler
runs, `datasets_readonly[dst] = true`. -/
theorem c8_handle_readonly (task : RTask) (t : Tmpl) (dctx : DstCtx)
    (h : task.readonly = .set ∨ task.readonly = .require) :
    ((Ev.execCmd ["zfs", "inherit", "readonly", t.dst_dataset] ∈
        (handle_readonly task t dctx).2) ↔
      ((alGet dctx.datasets_readonly (dirname t.dst_dataset)).isSome = true ∧
        alGet dctx.datasets_readonly t.dst_dataset = some false)) ∧
    alGet (handle_readonly task t dctx).1.datasets_readonly t.dst_dataset = some true ∧
    ((Ev.execCmd ["zfs", "set", "readonly=on", t.dst_dataset] ∈
        (handle_readonly task t dctx).2) ↔
      (alGet (alSet dctx.datasets_readonly t.dst_dataset true)
          (dirname t.dst_dataset)).getD false = false) := by
  have hro : (task.readonly = .set ∨ task.readonly = .require) = True := by
    simp [h]
  refine ⟨?_, ?_, ?_⟩
  · by_cases h1 : (alGet dctx.datasets_readonly (dirname t.dst_dataset)).isSome = true ∧
        alGet dctx.datasets_readonly t.dst_dataset = some false
    · simp [handle_readonly, hro, h1]
    · by_cases h2 : (alGet (alSet dctx.datasets_readonly t.dst_dataset true)
          (dirname t.dst_dataset)).getD false = false <;>
        simp [handle_readonly, hro, h1, h2]
  · by_cases h1 : (alGet dctx.datasets_readonly (dirname t.dst_dataset)).isSome = true ∧
        alGet dctx.datasets_readonly t.dst_dataset = some false <;>
      simp [handle_readonly, hro, h1, alGet_alSet_self]
  · by_cases h2 : (alGet (alSet dctx.datasets_readonly t.dst_dataset true)
        (dirname t.dst_dataset)).getD false = false
    · by_cases h1 : (alGet dctx.datasets_readonly (dirname t.dst_dataset)).isSome = true ∧
          alGet dctx.datasets_readonly t.dst_dataset = some false <;>
        simp [handle_readonly, hro, h1, h2]
    · by_cases h1 : (alGet dctx.datasets_readonly (dirname t.dst_dataset)).isSome = true ∧
          alGet dctx.datasets_readonly t.dst_dataset = some false <;>
        simp [handle_readonly, hro, h1, h2]

/-- C8 witness: the amended theorem applied with `task.readonly=SET` to a
newly created destination (absent from `datasets_readonly`): the handler
records `readonly=true` for it and sets `readonly=on` explicitly. -/
theorem c8_handle_readonly_witness :
    (({ base_task with readonly := .set } : RTask).readonly = .set ∨
      ({ base_task with readonly := .set } : RTask).readonly = .require) ∧
    alGet (handle_readonly { base_task with readonly := .set } ⟨0, 1, "t/d", "p/d"⟩
        ⟨[], [], []⟩).1.datasets_readonly "p/d" = some true :=
  ⟨Or.inl rfl,
   (c8_handle_readonly { base_task with readonly := .set } ⟨0, 1, "t/d", "p/d"⟩
     ⟨[], [], []⟩ (Or.inl rfl)).2.1⟩

/-- C5, counterexample.  An `IOError` escaping the part body is classified
recoverable, but the remote shell is *not* closed before the retry (no
`closeShellEv` anywhere in a run whose attempts all fail with I/O errors):
the source closes the shell only in the generic-`SSHException` branch, not
for every recoverable error as the claim (following spec section 7) states. -/
theorem c5_io_error_without_shell_close :
    classify (.ioErr "disk error") = .recov "disk error" false ∧
    Ev.closeShellEv ∉
      (retry_go (fun _ w => (w, [], some (.ioErr "disk error"))) 1 0 2 none 1
        ⟨[], 0⟩).2.1 := by decide

/-- C5 (amended): socket timeouts, `NoValidConnectionsError`,
`IOError`/`OSError` and generic `SSHException`s are classified recoverable
and the four named SSH failures (authentication, bad host key, proxy
command, config parse) terminal, with the `[Errno None]` prefix stripped
from paramiko messages; the remote shell is closed before the retry
*exactly* in the generic-`SSHException` case; a terminally classified
failure makes the retry loop emit `TaskError` with the classified message
and fail the part; a recoverably classified failure followed by a
successful attempt makes the part succeed (the failure was retried). -/
theorem c5_error_classification :
    (∀ m : String,
      classify .sockTimeout = .recov "Network connection timeout" false ∧
      classify (.noValidConnections m) = .recov (strip_errno m) false ∧
      classify (.ioErr m) = .recov m false ∧
      classify (.sshOther m) = .recov (strip_errno m) true ∧
      classify (.sshAuth m) = .term (strip_errno m) ∧
      classify (.sshBadHostKey m) = .term (strip_errno m) ∧
      classify (.sshProxyCommand m) = .term (strip_errno m) ∧
      classify (.sshConfigParse m) = .term (strip_errno m)) ∧
    (∀ (e : Err) (msg : String) (closed : Bool), classify e = .recov msg closed →
      (closed = true ↔ ∃ m, e = .sshOther m)) ∧
    (∀ (body : Nat → World → World × List Ev × Option Err) (tid a fuel : Nat)
      (w w2 : World) (evs : List Ev) (e : Err) (msg : String),
      body a w = (w2, evs, some e) → classify e = .term msg →
      retry_go body tid a (fuel + 1) none 1 w =
        (w2, evs ++ [.taskError tid msg (sentSum w2.ctr) (totalSum w2.ctr)],
         .failedPart)) ∧
    (∀ (body : Nat → World → World × List Ev × Option Err) (tid a fuel : Nat)
      (w w2 : World) (evs : List Ev) (e : Err) (msg : String) (closed : Bool),
      body a w = (w2, evs, some e) → classify e = .recov msg closed →
      (body (a + 1) w2).2.2 = none →
      (retry_go body tid a (fuel + 2) none 1 w).2.2 = .okPart) := by
  refine ⟨fun m => ⟨rfl, rfl, rfl, rfl, rfl, rfl, rfl, rfl⟩, ?_, ?_, ?_⟩
  · intro e msg closed h
    cases e <;> simp_all [classify]
  · intro body tid a fuel w w2 evs e msg hb hcl
    simp [retry_go, hb, hcl]
  · intro body tid a fuel w w2 evs e msg closed hb hcl h3
    simp only [retry_go, hb, hcl]
    simp [retry_go, h3]

/-- C5 witness: the loop-consequence conjuncts applied to a body that fails
terminally with a `ReplicationError` at the first attempt. -/
theorem c5_error_classification_witness :
    (fun (_ : Nat) (w : World) =>
        (w, ([] : List Ev), some (Err.replicationError "x"))) 0
        (⟨[], 0⟩ : World) =
      ((⟨[], 0⟩ : World), ([] : List Ev), some (Err.replicationError "x")) ∧
    classify (Err.replicationError "x") = .term "x" ∧
    retry_go (fun _ w => (w, [], some (.replicationError "x"))) 1 0 (0 + 1)
        none 1 ⟨[], 0⟩ =
      ((⟨[], 0⟩ : World),
       [] ++ [.taskError 1 "x" (sentSum ([] : List CEntry))
         (totalSum ([] : List CEntry))], .failedPart) :=
  ⟨rfl, rfl,
   c5_error_classification.2.2.1
     (fun _ w => (w, [], some (.replicationError "x"))) 1 0 0
     ⟨[], 0⟩ ⟨[], 0⟩ [] (.replicationError "x") "x" rfl rfl⟩

/-- Recognizer for `TaskError` events. -/
def is_task_error : Ev → Bool
  | .taskError _ _ _ _ => true
  | _ => false

/-- Recognizer for backoff-sleep events. -/
def is_sleep : Ev → Bool
  | .sleepEv _ => true
  | _ => false

/-- Expected event trail of the retry loop from attempt `a` on, over `n`
further attempts that all fail recoverably, starting from backoff `s`. -/
def retry_tail_trace (evs : Nat → List Ev) (closeds : Nat → Bool) :
    Nat → Nat → Nat → List Ev
  | _, 0, _ => []
  | a, n + 1, s =>
    [.sleepEv s] ++ evs a ++ (if closeds a then [.closeShellEv] else []) ++
      retry_tail_trace evs closeds (a + 1) n (min (s * 2) 60)

/-- The backoff values slept, starting from `s`, over `n` retries. -/
def backoffs : Nat → Nat → List Nat
  | _, 0 => []
  | s, n + 1 => s :: backoffs (min (s * 2) 60) n

theorem min_backoff_double (j : Nat) :
    min (min (2 ^ j) 60 * 2) 60 = min (2 ^ (j + 1)) 60 := by
  rcases le_or_lt (2 ^ j) 60 with h | h
  · rw [min_eq_left h, pow_succ]
  · have h2 : (60 : Nat) ≤ 2 ^ (j + 1) :=
      le_trans h.le (Nat.pow_le_pow_right (by omega) (by omega))
    rw [min_eq_right h.le, min_eq_right h2, min_eq_right (by omega : (60 : Nat) ≤ 60 * 2)]

theorem backoffs_closed_form (n j : Nat) :
    backoffs (min (2 ^ j) 60) n = (List.range n).map (fun k => min (2 ^ (j + k)) 60) := by
  induction n generalizing j with
  | zero => rfl
  | succ n ih =>
    rw [backoffs, min_backoff_double, ih (j + 1), List.range_succ_eq_map,
      List.map_cons, List.map_map]
    congr 1
    refine List.map_congr_left (fun k _ => ?_)
    simp only [Function.comp_apply]
    have h : j + 1 + k = j + Nat.succ k := by omega
    rw [h]

/-- The message of the final `TaskError` after `n` further all-recoverable
attempts starting at attempt `a`, when the previous failure (if any)
carried message `m`. -/
def last_msg (msgs : Nat → String) (m : String) (a : Nat) : Nat → String
  | 0 => m
  | k + 1 => msgs (a + k)

theorem last_msg_shift (msgs : Nat → String) (a n : Nat) :
    last_msg msgs (msgs a) (a + 1) n = msgs (a + n) := by
  cases n with
  | zero => simp [last_msg]
  | succ k =>
    simp only [last_msg]
    congr 1
    omega

theorem retry_go_all_recov_aux (body : Nat → World → World × List Ev × Option Err)
    (tid : Nat) (ws : Nat → World) (evs : Nat → List Ev) (errs : Nat → Err)
    (msgs : Nat → String) (closeds : Nat → Bool)
    (hbody : ∀ i, body i (ws i) = (ws (i + 1), evs i, some (errs i)))
    (hclass : ∀ i, classify (errs i) = .recov (msgs i) (closeds i)) :
    ∀ n a s m, retry_go body tid a n (some m) s (ws a) =
      (ws (a + n),
       retry_tail_trace evs closeds a n s ++
         [.taskError tid (last_msg msgs m a n)
            (sentSum (ws (a + n)).ctr) (totalSum (ws (a + n)).ctr)],
       .failedPart) := by
  intro n
  induction n with
  | zero =>
    intro a s m
    simp [retry_go, retry_tail_trace, opt_msg, last_msg]
  | succ n ih =>
    intro a s m
    rw [retry_go]
    simp only [hbody a, hclass a]
    rw [ih (a + 1) (min (s * 2) 60) (msgs a), last_msg_shift]
    have ha : a + 1 + n = a + (n + 1) := by omega
    rw [ha]
    simp [retry_tail_trace, last_msg]

theorem filter_task_error_retry_tail (evs : Nat → List Ev) (closeds : Nat → Bool)
    (hclean : ∀ i ev, ev ∈ evs i → is_task_error ev = false ∧ is_sleep ev = false) :
    ∀ n a s, (retry_tail_trace evs closeds a n s).filter is_task_error = [] := by
  intro n
  induction n with
  | zero => intro a s; rfl
  | succ n ih =>
    intro a s
    rw [retry_tail_trace]
    simp only [List.filter_append]
    rw [ih (a + 1) (min (s * 2) 60)]
    have h1 : (evs a).filter is_task_error = [] :=
      List.filter_eq_nil_iff.2 (fun ev hev => by simp [(hclean a ev hev).1])
    cases h : closeds a <;> simp [h1, is_task_error, h]

theorem filter_sleep_retry_tail (evs : Nat → List Ev) (closeds : Nat → Bool)
    (hclean : ∀ i ev, ev ∈ evs i → is_task_error ev = false ∧ is_sleep ev = false) :
    ∀ n a s, (retry_tail_trace evs closeds a n s).filter is_sleep =
      (backoffs s n).map Ev.sleepEv := by
  intro n
  induction n with
  | zero => intro a s; rfl
  | succ n ih =>
    intro a s
    rw [retry_tail_trace, backoffs]
    simp only [List.filter_append]
    rw [ih (a + 1) (min (s * 2) 60)]
    have h1 : (evs a).filter is_sleep = [] :=
      List.filter_eq_nil_iff.2 (fun ev hev => by simp [(hclean a ev hev).2])
    cases h : closeds a <;> simp [h1, is_sleep, h]

/-- C4: when every attempt of a part fails with a recoverably classified
error, the runner retries the whole part, sleeping before each retry the
sequence `1, 2, 4, ...` capped at 60 seconds, for exactly `task.retries`
attempts; the loop then fails the part emitting exactly one `TaskError`
carrying the last recoverable error's classified message; and all
subsequent parts of a failed task are skipped without events or state
changes. -/
theorem c4_retry_exhaustion (task : RTask)
    (body : Nat → World → World × List Ev × Option Err) (ws : Nat → World)
    (evs : Nat → List Ev) (errs : Nat → Err) (msgs : Nat → String)
    (closeds : Nat → Bool)
    (hbody : ∀ i, body i (ws i) = (ws (i + 1), evs i, some (errs i)))
    (hclass : ∀ i, classify (errs i) = .recov (msgs i) (closeds i))
    (hclean : ∀ i ev, ev ∈ evs i → is_task_error ev = false ∧ is_sleep ev = false)
    (hn : 1 ≤ task.retries) :
    (retry_go body task.id 0 task.retries none 1 (ws 0)).2.2 = .failedPart ∧
    (retry_go body task.id 0 task.retries none 1 (ws 0)).1 = ws task.retries ∧
    (retry_go body task.id 0 task.retries none 1 (ws 0)).2.1.filter is_task_error =
      [.taskError task.id (msgs (task.retries - 1))
        (sentSum (ws task.retries).ctr) (totalSum (ws task.retries).ctr)] ∧
    (retry_go body task.id 0 task.retries none 1 (ws 0)).2.1.filter is_sleep =
      (List.range (task.retries - 1)).map (fun k => .sleepEv (min (2 ^ k) 60)) ∧
    (∀ (rest : List (List AttemptData)) (started : Bool) (pl : Nat) (w : World),
      run_task_parts task rest started true pl w = (w, [], true)) := by
  obtain ⟨k, hk⟩ : ∃ k, task.retries = k + 1 :=
    ⟨task.retries - 1, by omega⟩
  have hrun : retry_go body task.id 0 task.retries none 1 (ws 0) =
      (ws (k + 1),
       [] ++ evs 0 ++ (if closeds 0 then [.closeShellEv] else []) ++
         (retry_tail_trace evs closeds 1 k 1 ++
           [.taskError task.id (msgs k)
             (sentSum (ws (k + 1)).ctr) (totalSum (ws (k + 1)).ctr)]),
       .failedPart) := by
    rw [hk, retry_go]
    simp only [hbody 0, hclass 0]
    rw [retry_go_all_recov_aux body task.id ws evs errs msgs closeds hbody hclass
      k 1 1 (msgs 0)]
    have ha : 1 + k = k + 1 := by omega
    have hmsg : last_msg msgs (msgs 0) 1 k = msgs k := by
      have := last_msg_shift msgs 0 k
      simpa using this
    rw [ha, hmsg]
  have hclean0 : (evs 0).filter is_task_error = [] :=
    List.filter_eq_nil_iff.2 (fun ev hev => by simp [(hclean 0 ev hev).1])
  have hclean0s : (evs 0).filter is_sleep = [] :=
    List.filter_eq_nil_iff.2 (fun ev hev => by simp [(hclean 0 ev hev).2])
  refine ⟨by rw [hrun], by rw [hrun, hk], ?_, ?_, ?_⟩
  · rw [hrun, hk]
    simp only [List.filter_append, hclean0,
      filter_task_error_retry_tail evs closeds hclean]
    cases h : closeds 0 <;> simp [is_task_error, h]
  · rw [hrun, hk]
    simp only [List.filter_append, hclean0s,
      filter_sleep_retry_tail evs closeds hclean]
    have hb : backoffs 1 k = (List.range k).map (fun j => min (2 ^ j) 60) := by
      have := backoffs_closed_form k 0
      simpa using this
    cases h : closeds 0 <;>
      simp [is_sleep, h, hb, List.map_map, Function.comp]
  · intro rest started pl w
    induction rest with
    | nil => rfl
    | cons p rest ih => rw [run_task_parts, if_pos rfl]; exact ih

/-- C4 witness: the theorem applied to a task with two retries whose
attempts all fail with an I/O error: one backoff sleep of 1 second and one
final `TaskError` carrying the error's message. -/
theorem c4_retry_exhaustion_witness :
    (∀ i : Nat, (fun (_ : Nat) (w : World) =>
        (w, ([] : List Ev), some (Err.ioErr "boom"))) i
        ((fun (_ : Nat) => (⟨[], 0⟩ : World)) i) =
      ((fun (_ : Nat) => (⟨[], 0⟩ : World)) (i + 1), [],
        some ((fun (_ : Nat) => Err.ioErr "boom") i))) ∧
    (retry_go (fun _ w => (w, [], some (.ioErr "boom")))
        ({ base_task with retries := 2 } : RTask).id 0
        ({ base_task with retries := 2 } : RTask).retries none 1
        ⟨[], 0⟩).2.1.filter is_task_error =
      [.taskError 1 "boom" 0 0] ∧
    (retry_go (fun _ w => (w, [], some (.ioErr "boom")))
        ({ base_task with retries := 2 } : RTask).id 0
        ({ base_task with retries := 2 } : RTask).retries none 1
        ⟨[], 0⟩).2.1.filter is_sleep = [.sleepEv 1] := by
  have h := c4_retry_exhaustion { base_task with retries := 2 }
    (fun _ w => (w, [], some (.ioErr "boom"))) (fun _ => ⟨[], 0⟩)
    (fun _ => []) (fun _ => .ioErr "boom") (fun _ => "boom") (fun _ => false)
    (fun _ => rfl) (fun _ => rfl) (fun _ ev hev => by cases hev) (by decide)
  exact ⟨fun i => rfl, h.2.2.1, by rw [h.2.2.2.1]; rfl⟩

theorem cGet_cMod_self (f : Nat × Nat → Nat × Nat) (k : Nat) (m : List CEntry) :
    cGet (cMod f k m) k = f (cGet m k) := by
  induction m with
  | nil => simp [cMod, cGet]
  | cons e rest ih =>
    by_cases h : e.key = k
    · simp [cMod, cGet, h]
    · simp [cMod, cGet, h, ih]

theorem cGet_cMod_other (f : Nat × Nat → Nat × Nat) (k k2 : Nat) (m : List CEntry)
    (h : k ≠ k2) : cGet (cMod f k m) k2 = cGet m k2 := by
  induction m with
  | nil => simp [cMod, cGet, h]
  | cons e rest ih =>
    by_cases h2 : e.key = k
    · simp [cMod, cGet, h2, h]
    · simp [cMod, cGet, h2, ih]

/-- C3: a resume-mode step that fails with a provider `ExecException` whose
stdout contains "used in the initial send no longer exists" or "destination
has snapshots" makes the resumer run `zfs recv -A` on the destination, end
with both counters of the template at zero (the step failed before any sent
increment, so the freshly built template's sent counter was still zero and
only the total is assigned), and return without propagating; a resume
failure with any other `ExecException` — or any non-`ExecException` error —
propagates out of `resume_replications`. -/
theorem c3_resume_failure_handling (task : RTask) (t : Tmpl) (rest : List Tmpl)
    (sctx : SrcCtx) (st : St) (resumed : Bool)
    (hdst : (alGet st.dctx.datasets t.dst_dataset).isSome = true)
    (htok : ((alGet st.dctx.datasets_receive_resume_tokens t.dst_dataset).getD
      none).isSome = true)
    (hsent : (cGet st.ctr t.objId).1 = 0) :
    (∀ stdout : String, (nextOutcome st.outcomes).1 = .fail (.execErr stdout) →
      (str_contains stdout "used in the initial send no longer exists" = true ∨
        str_contains stdout "destination has snapshots" = true) →
      Ev.execCmd ["zfs", "recv", "-A", t.dst_dataset] ∈
        (resume_replications task [t] sctx st resumed).2.1 ∧
      cGet (resume_replications task [t] sctx st resumed).1.ctr t.objId = (0, 0) ∧
      (resume_replications task [t] sctx st resumed).2.2.2 = none) ∧
    (∀ stdout : String, (nextOutcome st.outcomes).1 = .fail (.execErr stdout) →
      str_contains stdout "used in the initial send no longer exists" = false →
      str_contains stdout "destination has snapshots" = false →
      (resume_replications task (t :: rest) sctx st resumed).2.2.2 =
        some (.execErr stdout) ∧
      Ev.execCmd ["zfs", "recv", "-A", t.dst_dataset] ∉
        (resume_replications task (t :: rest) sctx st resumed).2.1) ∧
    (∀ e : Err, (∀ s, e ≠ .execErr s) →
      (nextOutcome st.outcomes).1 = .fail e →
      (resume_replications task (t :: rest) sctx st resumed).2.2.2 = some e) := by
  rcases hno : nextOutcome st.outcomes with ⟨o, orest⟩
  refine ⟨?_, ?_, ?_⟩
  · intro stdout hfail hmark
    simp only at hfail
    subst hfail
    have hm : (str_contains stdout "used in the initial send no longer exists" = true ∨
        str_contains stdout "destination has snapshots" = true) = True := by
      simp [hmark]
    simp only [resume_replications, run_replication_step, hdst, htok, hno,
      and_self, if_true, hm, if_pos trivial]
    refine ⟨by simp, ?_, by simp [resume_replications]⟩
    rw [cGet_cMod_self, cGet_cMod_self]
    simp [hsent]
  · intro stdout hfail hm1 hm2
    simp only at hfail
    subst hfail
    simp only [resume_replications, run_replication_step, hdst, htok, hno,
      and_self, if_true, hm1, hm2, or_self, if_false]
    constructor
    · rfl
    · simp [Ev.execCmd.injEq]
  · intro e hne hfail
    simp only at hfail
    subst hfail
    cases e with
    | execErr s => exact absurd rfl (hne s)
    | _ =>
      simp [resume_replications, run_replication_step, hdst, htok, hno]

/-- C3 witness: the theorem applied to a concrete state whose resume step
fails with an obsolete-token `ExecException`. -/
theorem c3_resume_failure_handling_witness :
    let st : St := ⟨[], ⟨[("b/d", [])], [], [("b/d", some "tok")]⟩,
      [.fail (.execErr "cannot resume send: destination has snapshots")]⟩
    (alGet st.dctx.datasets "b/d").isSome = true ∧
    ((alGet st.dctx.datasets_receive_resume_tokens "b/d").getD none).isSome = true ∧
    (cGet st.ctr 0).1 = 0 ∧
    (Ev.execCmd ["zfs", "recv", "-A", "b/d"] ∈
      (resume_replications base_task [⟨0, 1, "t/d", "b/d"⟩] ⟨[]⟩ st false).2.1 ∧
    cGet (resume_replications base_task [⟨0, 1, "t/d", "b/d"⟩] ⟨[]⟩ st false).1.ctr 0 =
      (0, 0) ∧
    (resume_replications base_task [⟨0, 1, "t/d", "b/d"⟩] ⟨[]⟩ st false).2.2.2 = none) := by
  refine ⟨by decide, by decide, by decide, ?_⟩
  exact (c3_resume_failure_handling base_task ⟨0, 1, "t/d", "b/d"⟩ [] ⟨[]⟩ _ false
    (by decide) (by decide) (by decide)).1
    "cannot resume send: destination has snapshots" (by decide) (by decide)

/-- Task of the C10 scenario: three parseable snapshots `s1 < s2 < s3`. -/
def c10_task : RTask where
  id := 7
  parse_name := fun n =>
    if n = "s1" then some 1 else if n = "s2" then some 2
    else if n = "s3" then some 3 else none
  should_replicate_parsed := fun _ => true
  retention_policy := fun _ _ _ => []
  allow_from_scratch := true
  readonly := .ignore
  retries := 2
  encryption := false

/-- Attempt of the C10 scenario: the destination exists, empty of
snapshots, with a resume token; the planner reports three snapshots to
send; the resume succeeds; the post-resume listing shows two snapshots
already on the destination, so the fresh plan sends only `s3`. -/
def c10_attempt : AttemptData where
  src_type := "filesystem"
  dst_type := some "filesystem"
  root_dst := "b/d"
  enc_supported := false
  encryption_prop := "off"
  encryptionroot_prop := ""
  mounted := false
  has_data := false
  listing1 := ⟨[("t/d", ["s1", "s2", "s3"])], [("b/d", [])], [("b/d", true)],
    [("b/d", some "tok")], [("t/d", "b/d")]⟩
  listing2 := ⟨[("t/d", ["s1", "s2", "s3"])], [("b/d", ["s1", "s2"])],
    [("b/d", true)], [("b/d", none)], [("t/d", "b/d")]⟩
  ensure_fails := []
  outcomes := [.ok, .ok]

/-- C10: after a resume-mode step succeeds, `resume_replications` assigns
the template's sent and total counter entries both to exactly 1 regardless
of how many snapshots the planner reported (the total written just before
the step is overwritten); consequently — shown on the concrete scenario —
the during-resume `SnapshotStart` reports a global total of 3 while a
subsequent observer event of the same run reports the smaller total 2. -/
theorem c10_resume_counters_overwritten :
    (∀ (task : RTask) (t : Tmpl) (sctx : SrcCtx) (st : St) (resumed : Bool),
      (alGet st.dctx.datasets t.dst_dataset).isSome = true →
      ((alGet st.dctx.datasets_receive_resume_tokens t.dst_dataset).getD
        none).isSome = true →
      (nextOutcome st.outcomes).1 = .ok →
      cGet (resume_replications task [t] sctx st resumed).1.ctr t.objId = (1, 1) ∧
      (resume_replications task [t] sctx st resumed).2.2.1 = true) ∧
    Ev.snapshotStart 7 "t/d" "s1" 0 3 ∈ (run_task c10_task [[c10_attempt]]).2.1 ∧
    Ev.snapshotStart 7 "t/d" "s3" 1 2 ∈ (run_task c10_task [[c10_attempt]]).2.1 := by
  refine ⟨?_, by decide, by decide⟩
  intro task t sctx st resumed hdst htok hok
  rcases hno : nextOutcome st.outcomes with ⟨o, orest⟩
  rw [hno] at hok
  simp only at hok
  subst hok
  simp only [resume_replications, run_replication_step, hdst, htok, hno,
    and_self, if_true, cGet_cMod_self]

/-- C10 witness: the universal conjunct applied to a concrete state with a
resume token and a successful outcome — the planner reported two snapshots
but the counters end at `(1, 1)`. -/
theorem c10_resume_counters_overwritten_witness :
    (alGet [("b/d", ["s0"])] "b/d").isSome = true ∧
    ((alGet [("b/d", some "tok")] "b/d").getD none).isSome = true ∧
    (nextOutcome [StepOutcome.ok]).1 = .ok ∧
    cGet (resume_replications c10_task [⟨0, 7, "t/d", "b/d"⟩] ⟨[("t/d", ["s1", "s2"])]⟩
      ⟨[], ⟨[("b/d", ["s0"])], [], [("b/d", some "tok")]⟩, [.ok]⟩ false).1.ctr 0 =
      (1, 1) :=
  ⟨by decide, by decide, by decide,
   ((c10_resume_counters_overwritten).1 c10_task ⟨0, 7, "t/d", "b/d"⟩
     ⟨[("t/d", ["s1", "s2"])]⟩
     ⟨[], ⟨[("b/d", ["s0"])], [], [("b/d", some "tok")]⟩, [.ok]⟩ false
     (by decide) (by decide) (by decide)).1⟩

/-- Recognizer for the observer events of a snapshot send (emitted only by
`run_replication_step`). -/
def is_send_ev : Ev → Bool
  | .snapshotStart _ _ _ _ _ => true
  | .snapshotProgress _ _ _ _ _ => true
  | .snapshotSuccess _ _ _ _ _ => true
  | _ => false

/-- Recognizer for `destroy_snapshots` provider calls. -/
def is_destroy_ev : Ev → Bool
  | .destroySnapshotsEv _ _ => true
  | _ => false

theorem handle_readonly_send_destroy_free (task : RTask) (t : Tmpl) (dctx : DstCtx) :
    (handle_readonly task t dctx).2.filter is_send_ev = [] ∧
    (handle_readonly task t dctx).2.filter is_destroy_ev = [] := by
  rw [handle_readonly]
  split
  · constructor <;>
      (by_cases h1 : (alGet dctx.datasets_readonly (dirname t.dst_dataset)).isSome = true ∧
          alGet dctx.datasets_readonly t.dst_dataset = some false <;>
       by_cases h2 : (alGet (alSet dctx.datasets_readonly t.dst_dataset true)
          (dirname t.dst_dataset)).getD false = false <;>
       simp [h1, h2, is_send_ev, is_destroy_ev])
  · constructor <;> rfl

theorem run_replication_step_destroy_free (task : RTask) (t : Tmpl) (lbl : String)
    (ib : Option String) (st : St) :
    (run_replication_step task t lbl ib st).2.1.filter is_destroy_ev = [] := by
  rw [run_replication_step]
  repeat' split
  all_goals
    simp [List.filter_append, is_destroy_ev,
      (handle_readonly_send_destroy_free task t st.dctx).2]

theorem replicate_snapshots_destroy_free (task : RTask) (t : Tmpl) :
    ∀ (snaps : List String) (ib : Option String) (st : St),
      (replicate_snapshots task t ib snaps st).2.1.filter is_destroy_ev = [] := by
  intro snaps
  induction snaps with
  | nil => intro ib st; rfl
  | cons s rest ih =>
    intro ib st
    rw [replicate_snapshots]
    repeat' split
    all_goals
      simp [List.filter_append, run_replication_step_destroy_free, ih]

theorem execute_plan_destroy_free (task : RTask) :
    ∀ (plan : List PlanEntry) (st : St),
      (execute_plan task plan st).2.1.filter is_destroy_ev = [] := by
  intro plan
  induction plan with
  | nil => intro st; rfl
  | cons p rest ih =>
    intro st
    rw [execute_plan]
    repeat' split
    all_goals
      simp [List.filter_append, replicate_snapshots_destroy_free,
        (handle_readonly_send_destroy_free task p.t _).2, ih]

theorem plan_branch_send_free (task : RTask) (t : Tmpl)
    (dst_snapshots : List String) (base : Option String) (ef : List String)
    (is_first : Bool) :
    (plan_branch task t dst_snapshots base ef is_first).1.filter is_send_ev = [] := by
  rw [plan_branch]
  repeat' split
  all_goals rfl

theorem plan_parent_evs_send_free (t : Tmpl) (dctx : DstCtx) (is_first : Bool) :
    (plan_parent_evs t dctx is_first).filter is_send_ev = [] := by
  rw [plan_parent_evs]
  repeat' split
  all_goals rfl

theorem plan_templates_send_free (task : RTask) (sctx : SrcCtx) :
    ∀ (ts : List Tmpl) (ef : List String) (fl : Bool) (ps : PlanSt),
      (plan_templates task sctx ts ef fl ps).2.1.filter is_send_ev = [] := by
  intro ts
  induction ts with
  | nil => intro ef fl ps; rfl
  | cons t rest ih =>
    intro ef fl ps
    rw [plan_templates]
    by_cases hig : (ps.ignored_roots.any fun root => is_child t.src_dataset root) = true
    · simp only [hig, if_true]
      exact ih ef false ps
    · simp only [hig, Bool.false_eq_true, if_false]
      rcases hbr : (plan_branch task t ((alGet ps.st.dctx.datasets t.dst_dataset).getD [])
          (get_snapshots_to_send ((alGet sctx.datasets t.src_dataset).getD [])
            ((alGet ps.st.dctx.datasets t.dst_dataset).getD []) task).1 ef fl).2 with _ | e
      · simp only [hbr]
        by_cases hempty : (get_snapshots_to_send ((alGet sctx.datasets t.src_dataset).getD [])
            ((alGet ps.st.dctx.datasets t.dst_dataset).getD []) task).2 = []
        · simp only [hempty, if_true, List.filter_append, plan_branch_send_free, ih,
            List.append_nil, List.nil_append]
        · simp only [hempty, if_false, List.filter_append, plan_branch_send_free,
            plan_parent_evs_send_free, ih, List.append_nil, List.nil_append]
      · simp only [hbr, plan_branch_send_free]

/-- C2: in `run_replication_steps`, (i) the trace splits into a planning
phase containing no snapshot-send events followed by an execution phase
containing no snapshot-destroy calls — so every destroy precedes every
send of the plan; (ii) when the planner returns no incremental base for a
reached template and the destination has snapshots, `allow_from_scratch`
makes the planning phase destroy all destination snapshots, while (iii)
`allow_from_scratch = false` raises `NoIncrementalBaseReplicationError`
from the planning phase; and (iv) whenever planning raises, no send at all
is executed (in particular none for that template). -/
theorem c2_no_incremental_base (task : RTask) :
    (∀ (ts : List Tmpl) (sctx : SrcCtx) (ef : List String) (st : St),
      ∃ p q, (run_replication_steps task ts sctx ef st).2.1 = p ++ q ∧
        p.filter is_send_ev = [] ∧ q.filter is_destroy_ev = []) ∧
    (∀ (sctx : SrcCtx) (t : Tmpl) (post : List Tmpl) (ef : List String)
        (fl : Bool) (ps : PlanSt),
      (ps.ignored_roots.any fun root => is_child t.src_dataset root) = false →
      (get_snapshots_to_send ((alGet sctx.datasets t.src_dataset).getD [])
        ((alGet ps.st.dctx.datasets t.dst_dataset).getD []) task).1 = none →
      (alGet ps.st.dctx.datasets t.dst_dataset).getD [] ≠ [] →
      task.allow_from_scratch = true →
      Ev.destroySnapshotsEv t.dst_dataset
          ((alGet ps.st.dctx.datasets t.dst_dataset).getD []) ∈
        (plan_templates task sctx (t :: post) ef fl ps).2.1) ∧
    (∀ (sctx : SrcCtx) (t : Tmpl) (post : List Tmpl) (ef : List String)
        (fl : Bool) (ps : PlanSt),
      (ps.ignored_roots.any fun root => is_child t.src_dataset root) = false →
      (get_snapshots_to_send ((alGet sctx.datasets t.src_dataset).getD [])
        ((alGet ps.st.dctx.datasets t.dst_dataset).getD []) task).1 = none →
      (alGet ps.st.dctx.datasets t.dst_dataset).getD [] ≠ [] →
      task.allow_from_scratch = false →
      (plan_templates task sctx (t :: post) ef fl ps).2.2 =
        some (.noIncrementalBase (no_base_msg t.src_dataset))) ∧
    (∀ (ts : List Tmpl) (sctx : SrcCtx) (ef : List String) (st : St) (e : Err),
      (plan_templates task sctx ts ef true ⟨st, [], []⟩).2.2 = some e →
      (run_replication_steps task ts sctx ef st).2.1.filter is_send_ev = []) := by
  refine ⟨?_, ?_, ?_, ?_⟩
  · intro ts sctx ef st
    rw [run_replication_steps]
    rcases hg : readonly_gate task ts st.dctx with _ | e
    · rcases herr : (plan_templates task sctx ts ef true ⟨st, [], []⟩).2.2 with _ | e
      · refine ⟨(plan_templates task sctx ts ef true ⟨st, [], []⟩).2.1,
          (execute_plan task (plan_templates task sctx ts ef true ⟨st, [], []⟩).1.plan
            (plan_templates task sctx ts ef true ⟨st, [], []⟩).1.st).2.1,
          ?_, plan_templates_send_free task sctx ts ef true _,
          execute_plan_destroy_free task _ _⟩
        simp only [herr]
      · refine ⟨(plan_templates task sctx ts ef true ⟨st, [], []⟩).2.1, [],
          ?_, plan_templates_send_free task sctx ts ef true _, rfl⟩
        simp only [herr, List.append_nil]
    · exact ⟨[], [], rfl, rfl, rfl⟩
  · intro sctx t post ef fl ps hig hbase hdst hallow
    rw [plan_templates]
    simp only [hig, Bool.false_eq_true, if_false]
    rw [hbase]
    have hbranch : plan_branch task t ((alGet ps.st.dctx.datasets t.dst_dataset).getD [])
        none ef fl =
        ([.destroySnapshotsEv t.dst_dataset
           ((alGet ps.st.dctx.datasets t.dst_dataset).getD [])], none) := by
      rw [plan_branch]
      simp [hdst, hallow]
    rw [hbranch]
    by_cases hempty : (get_snapshots_to_send ((alGet sctx.datasets t.src_dataset).getD [])
        ((alGet ps.st.dctx.datasets t.dst_dataset).getD []) task).2 = []
    · simp [hempty]
    · simp [hempty]
  · intro sctx t post ef fl ps hig hbase hdst hallow
    rw [plan_templates]
    simp only [hig, Bool.false_eq_true, if_false]
    rw [hbase]
    have hbranch : plan_branch task t ((alGet ps.st.dctx.datasets t.dst_dataset).getD [])
        none ef fl =
        ([], some (.noIncrementalBase (no_base_msg t.src_dataset))) := by
      rw [plan_branch]
      simp [hdst, hallow]
    rw [hbranch]
  · intro ts sctx ef st e herr
    rw [run_replication_steps]
    rcases hg : readonly_gate task ts st.dctx with _ | e2
    · simp only [herr]
      exact plan_templates_send_free task sctx ts ef true _
    · rfl

/-- Task of the C2 witness: source snapshot `s1` parses, the destination
snapshot `x` does not, so there is no incremental base while the
destination has snapshots. -/
def c2_task : RTask :=
  { base_task with parse_name := fun n => if n = "s1" then some 1 else none }

/-- C2 witness: the destroy conjunct applied to a concrete reached template
with no incremental base and a non-empty destination. -/
theorem c2_no_incremental_base_witness :
    ((([] : List String).any fun root => is_child "t/d" root) = false ∧
     (get_snapshots_to_send ["s1"] ["x"] c2_task).1 = none ∧
     (["x"] : List String) ≠ [] ∧
     c2_task.allow_from_scratch = true) ∧
    Ev.destroySnapshotsEv "b/d" ["x"] ∈
      (plan_templates c2_task ⟨[("t/d", ["s1"])]⟩ [⟨0, 1, "t/d", "b/d"⟩] [] true
        ⟨⟨[], ⟨[("b/d", ["x"])], [], []⟩, []⟩, [], []⟩).2.1 := by
  refine ⟨⟨rfl, by decide, by decide, rfl⟩, ?_⟩
  have h := (c2_no_incremental_base c2_task).2.1 ⟨[("t/d", ["s1"])]⟩
    ⟨0, 1, "t/d", "b/d"⟩ [] [] true
    ⟨⟨[], ⟨[("b/d", ["x"])], [], []⟩, []⟩, [], []⟩
    rfl (by decide) (by decide) rfl
  simpa using h

/-- Task of the C7 counterexample: `readonly=REQUIRE`, three parseable
snapshots. -/
def c7_task : RTask :=
  { c10_task with readonly := .require }

/-- Attempt of the C7 counterexample: the destination exists with
`readonly=false` *and* carries a receive-resume token, so the resumer runs
a receive into the destination before the require-readonly gate is ever
consulted; the post-resume listing still shows `readonly=false`. -/
def c7_attempt : AttemptData where
  src_type := "filesystem"
  dst_type := some "filesystem"
  root_dst := "b/d"
  enc_supported := false
  encryption_prop := "off"
  encryptionroot_prop := ""
  mounted := false
  has_data := false
  listing1 := ⟨[("t/d", ["s1", "s2", "s3"])], [("b/d", ["s1"])], [("b/d", false)],
    [("b/d", some "tok")], [("t/d", "b/d")]⟩
  listing2 := ⟨[("t/d", ["s1", "s2", "s3"])], [("b/d", ["s1", "s2"])],
    [("b/d", false)], [("b/d", none)], [("t/d", "b/d")]⟩
  ensure_fails := []
  outcomes := [.ok]

/-- C7, counterexample.  With `task.readonly=REQUIRE` and a destination
that exists tracked `readonly=false` — but also holding a receive-resume
token — the run performs a resume-mode receive into the destination
(snapshot events, a `zfs umount`, and even a `zfs set readonly=on` from the
readonly handler) *before* the terminal require-readonly error is raised:
provider writes and a send precede the `TaskError`, contradicting the
claim that the error is raised before any send with no prior provider
write. -/
theorem c7_write_before_readonly_error :
    c7_task.readonly = .require ∧
    alGet c7_attempt.listing1.dst_readonly "b/d" = some false ∧
    (alGet c7_attempt.listing1.dst_datasets "b/d").isSome = true ∧
    (run_task c7_task [[c7_attempt]]).2.1 =
      [.taskStart 7 0 0,
       .snapshotStart 7 "t/d" "s2" 0 2,
       .execCmd ["zfs", "umount", "b/d"],
       .snapshotProgress 7 "t/d" "s2" 0 2,
       .snapshotSuccess 7 "t/d" "s2" 1 2,
       .execCmd ["zfs", "set", "readonly=on", "b/d"],
       .taskError 7 (readonly_gate_msg "b/d") 1 1] := by
  refine ⟨rfl, by decide, by decide, by decide⟩

theorem resume_replications_no_tokens (task : RTask) (sctx : SrcCtx) :
    ∀ (ts : List Tmpl) (st : St) (resumed : Bool),
      (∀ d, (alGet st.dctx.datasets_receive_resume_tokens d).getD none = none) →
      resume_replications task ts sctx st resumed = (st, [], resumed, none) := by
  intro ts
  induction ts with
  | nil => intro st resumed h; rfl
  | cons t rest ih =>
    intro st resumed h
    rw [resume_replications]
    have htok : ((alGet st.dctx.datasets_receive_resume_tokens t.dst_dataset).getD
        none).isSome = false := by
      rw [h t.dst_dataset]
      rfl
    rw [if_neg]
    · exact ih st resumed h
    · intro hcon
      rw [htok] at hcon
      exact Bool.false_ne_true hcon.2

theorem destroy_empty_unsupported (task : RTask) (a : AttemptData)
    (h : a.enc_supported = false) (st : St) :
    destroy_empty_encrypted_target task a st = (st, [], none) := by
  rw [destroy_empty_encrypted_target]
  rcases halg : alGet st.dctx.datasets a.root_dst with _ | snaps
  · rfl
  · simp [h]

theorem build_templates_pair_mem (taskId : Nat) :
    ∀ (pairs : List (String × String)) (n : Nat) (pr : String × String),
      pr ∈ pairs → ∃ tid, (⟨tid, taskId, pr.1, pr.2⟩ : Tmpl) ∈
        build_templates taskId pairs n := by
  intro pairs
  induction pairs with
  | nil => intro n pr h; cases h
  | cons p rest ih =>
    intro n pr h
    rcases List.mem_cons.1 h with rfl | h2
    · exact ⟨n, by rw [build_templates]; exact List.mem_cons_self _ _⟩
    · obtain ⟨tid, hmem⟩ := ih (n + 1) pr h2
      refine ⟨tid, ?_⟩
      obtain ⟨s, d⟩ := p
      rw [build_templates]
      exact List.mem_cons_of_mem _ hmem

theorem readonly_gate_fires (task : RTask) (ts : List Tmpl) (dctx : DstCtx)
    (h1 : task.readonly = .require)
    (h5 : ∃ t ∈ ts, (alGet dctx.datasets_readonly t.dst_dataset).getD true = false) :
    ∃ d, readonly_gate task ts dctx = some (.replicationError (readonly_gate_msg d)) := by
  rw [readonly_gate, if_pos h1]
  have hfind : (ts.find? (fun t =>
      !((alGet dctx.datasets_readonly t.dst_dataset).getD true))).isSome = true := by
    rw [List.find?_isSome]
    obtain ⟨t, hmem, hval⟩ := h5
    exact ⟨t, hmem, by simp [hval]⟩
  rcases hf : ts.find? (fun t =>
      !((alGet dctx.datasets_readonly t.dst_dataset).getD true)) with _ | t
  · rw [hf] at hfind
    cases hfind
  · exact ⟨t.dst_dataset, by rw [hf]⟩

/-- C7 (amended): for a part with `task.readonly=REQUIRE` whose target type
matches, whose destination listings carry *no* receive-resume token (so no
resume step runs), whose encrypted-target disposal is inert (encryption
properties unsupported on the destination shell, the no-write early
return), and in which some emitted template's destination is tracked with
`readonly=false`, the part raises the terminal require-readonly
`ReplicationError` before any send and emits *no* event at all — in
particular no provider write (no destroy, no `zfs recv -A`, no snapshot
send) has happened when the retry loop turns this error into `TaskError`. -/
theorem c7_require_readonly_gate (task : RTask) (a : AttemptData) (w : World)
    (h1 : task.readonly = .require)
    (h2 : check_target_type a = none)
    (h3 : ∀ d, (alGet a.listing1.dst_tokens d).getD none = none)
    (h4 : a.enc_supported = false)
    (h5 : ∃ pr ∈ a.listing1.template_pairs,
      (alGet a.listing1.dst_readonly pr.2).getD true = false) :
    (∃ d, (run_replication_task_part task a w).2.2 =
      some (.replicationError (readonly_gate_msg d))) ∧
    (run_replication_task_part task a w).2.1 = [] := by
  have hgate : ∃ d, readonly_gate task
      (build_templates task.id a.listing1.template_pairs w.nextId)
      (mk_ctxs a.listing1).2 = some (.replicationError (readonly_gate_msg d)) := by
    refine readonly_gate_fires task _ _ h1 ?_
    obtain ⟨pr, hmem, hval⟩ := h5
    obtain ⟨tid, htm⟩ := build_templates_pair_mem task.id a.listing1.template_pairs
      w.nextId pr hmem
    exact ⟨⟨tid, task.id, pr.1, pr.2⟩, htm, hval⟩
  obtain ⟨d, hgate⟩ := hgate
  simp only [mk_ctxs] at hgate
  have hres := resume_replications_no_tokens task ⟨a.listing1.src_datasets⟩
    (build_templates task.id a.listing1.template_pairs w.nextId)
    ⟨w.ctr, ⟨a.listing1.dst_datasets, a.listing1.dst_readonly, a.listing1.dst_tokens⟩,
      a.outcomes⟩ false (fun d => h3 d)
  simp only [run_replication_task_part, h2, destroy_empty_unsupported task a h4,
    mk_ctxs, hres, run_replication_steps, hgate]
  exact ⟨⟨d, rfl⟩, rfl⟩

/-- C7 witness: the amended theorem applied to a token-free variant of the
C7 scenario: the part fails with the require-readonly error and emits
nothing. -/
theorem c7_require_readonly_gate_witness :
    (c7_task.readonly = .require ∧
     check_target_type { c7_attempt with
       listing1 := ⟨[("t/d", ["s1", "s2", "s3"])], [("b/d", ["s1"])],
         [("b/d", false)], [("b/d", none)], [("t/d", "b/d")]⟩ } = none) ∧
    (∃ d, (run_replication_task_part c7_task { c7_attempt with
       listing1 := ⟨[("t/d", ["s1", "s2", "s3"])], [("b/d", ["s1"])],
         [("b/d", false)], [("b/d", none)], [("t/d", "b/d")]⟩ } ⟨[], 0⟩).2.2 =
      some (.replicationError (readonly_gate_msg d))) ∧
    (run_replication_task_part c7_task { c7_attempt with
       listing1 := ⟨[("t/d", ["s1", "s2", "s3"])], [("b/d", ["s1"])],
         [("b/d", false)], [("b/d", none)], [("t/d", "b/d")]⟩ } ⟨[], 0⟩).2.1 = [] := by
  refine ⟨⟨rfl, rfl⟩, ?_⟩
  exact c7_require_readonly_gate c7_task _ ⟨[], 0⟩ rfl rfl
    (by intro d; simp [alGet]; split <;> rfl) rfl
    ⟨("t/d", "b/d"), by decide, by decide⟩

/-- The `(snapshots_sent, snapshots_total)` sums recorded in an observer
event, if it is one. -/
def ev_counters : Ev → Option (Nat × Nat)
  | .taskStart _ s t => some (s, t)
  | .taskSuccess _ s t => some (s, t)
  | .taskError _ _ s t => some (s, t)
  | .snapshotStart _ _ _ s t => some (s, t)
  | .snapshotProgress _ _ _ s t => some (s, t)
  | .snapshotSuccess _ _ _ s t => some (s, t)
  | _ => true |> fun _ => none

/-- An event is progress-consistent when the sums it records satisfy
`snapshots_sent ≤ snapshots_total` (provider effects record no sums). -/
def ev_ok (e : Ev) : Bool :=
  match ev_counters e with
  | some (s, t) => decide (s ≤ t)
  | none => true

/-- Recognizer for `TaskSuccess` events. -/
def is_task_success : Ev → Bool
  | .taskSuccess _ _ _ => true
  | _ => false

/-- Per-key counter invariant: every template's sent counter is at most its
total counter. -/
def ctrLEk (m : List CEntry) : Prop := ∀ k, (cGet m k).1 ≤ (cGet m k).2

/-- Per-key counter equality: every template's sent counter equals its
total counter. -/
def ctrEQk (m : List CEntry) : Prop := ∀ k, (cGet m k).1 = (cGet m k).2

/-- No counter entry exists at or above the next fresh object identity. -/
def freshFrom (m : List CEntry) (n : Nat) : Prop :=
  ∀ k, n ≤ k → cGet m k = (0, 0)

/-- Uniqueness of counter keys (holds for every counter list the runner
builds, since `cMod` updates in place). -/
def keysNodup (m : List CEntry) : Prop := (m.map CEntry.key).Nodup

theorem cGet_not_mem (m : List CEntry) (k : Nat)
    (h : k ∉ m.map CEntry.key) : cGet m k = (0, 0) := by
  induction m with
  | nil => rfl
  | cons e rest ih =>
    rw [cGet]
    rw [List.map_cons, List.mem_cons] at h
    rw [if_neg (fun hc => h (Or.inl hc.symm))]
    exact ih (fun hc => h (Or.inr hc))

theorem keysNodup_tail {e : CEntry} {rest : List CEntry}
    (h : keysNodup (e :: rest)) : keysNodup rest :=
  (List.nodup_cons.1 h).2

theorem ctrLEk_tail {e : CEntry} {rest : List CEntry}
    (h1 : keysNodup (e :: rest)) (h2 : ctrLEk (e :: rest)) : ctrLEk rest := by
  intro k
  by_cases hk : e.key = k
  · rw [cGet_not_mem rest k (by rw [← hk]; exact (List.nodup_cons.1 h1).1)]
  · have := h2 k
    rw [cGet, if_neg hk] at this
    exact this

theorem ctrEQk_tail {e : CEntry} {rest : List CEntry}
    (h1 : keysNodup (e :: rest)) (h2 : ctrEQk (e :: rest)) : ctrEQk rest := by
  intro k
  by_cases hk : e.key = k
  · rw [cGet_not_mem rest k (by rw [← hk]; exact (List.nodup_cons.1 h1).1)]
  · have := h2 k
    rw [cGet, if_neg hk] at this
    exact this

theorem sums_le (m : List CEntry) (h1 : keysNodup m) (h2 : ctrLEk m) :
    sentSum m ≤ totalSum m := by
  induction m with
  | nil => exact Nat.le_refl 0
  | cons e rest ih =>
    have hhead : e.sent ≤ e.total := by
      have := h2 e.key
      rw [cGet, if_pos rfl] at this
      exact this
    have := ih (keysNodup_tail h1) (ctrLEk_tail h1 h2)
    simp only [sentSum, totalSum, List.map_cons, List.sum_cons] at *
    omega

theorem sums_eq (m : List CEntry) (h1 : keysNodup m) (h2 : ctrEQk m) :
    sentSum m = totalSum m := by
  induction m with
  | nil => rfl
  | cons e rest ih =>
    have hhead : e.sent = e.total := by
      have := h2 e.key
      rw [cGet, if_pos rfl] at this
      exact this
    have := ih (keysNodup_tail h1) (ctrEQk_tail h1 h2)
    simp only [sentSum, totalSum, List.map_cons, List.sum_cons] at *
    omega

theorem cMod_keys_subset (f : Nat × Nat → Nat × Nat) (k : Nat) :
    ∀ (m : List CEntry) (k2 : Nat), k2 ∈ (cMod f k m).map CEntry.key →
      k2 = k ∨ k2 ∈ m.map CEntry.key := by
  intro m
  induction m with
  | nil => intro k2 h; simpa [cMod] using h
  | cons e rest ih =>
    intro k2 h
    rw [cMod] at h
    by_cases hk : e.key = k
    · rw [if_pos hk] at h
      rcases List.mem_cons.1 h with h2 | h2
      · exact Or.inl h2
      · exact Or.inr (List.mem_cons.2 (Or.inr h2))
    · rw [if_neg hk] at h
      rcases List.mem_cons.1 h with h2 | h2
      · exact Or.inr (List.mem_cons.2 (Or.inl h2))
      · rcases ih k2 h2 with h3 | h3
        · exact Or.inl h3
        · exact Or.inr (List.mem_cons.2 (Or.inr h3))

theorem keysNodup_cMod (f : Nat × Nat → Nat × Nat) (k : Nat) (m : List CEntry)
    (h : keysNodup m) : keysNodup (cMod f k m) := by
  induction m with
  | nil => simp [cMod, keysNodup]
  | cons e rest ih =>
    rw [cMod]
    by_cases hk : e.key = k
    · rw [if_pos hk]
      rcases List.nodup_cons.1 h with ⟨h1, h2⟩
      refine List.nodup_cons.2 ⟨?_, h2⟩
      simpa [hk] using h1
    · rw [if_neg hk]
      rcases List.nodup_cons.1 h with ⟨h1, h2⟩
      refine List.nodup_cons.2 ⟨?_, ih h2⟩
      intro hc
      rcases cMod_keys_subset f k rest e.key hc with h4 | h4
      · exact hk h4
      · exact h1 h4

theorem ctrLEk_cMod (f : Nat × Nat → Nat × Nat) (k : Nat) (m : List CEntry)
    (h : ctrLEk m) (hk : (f (cGet m k)).1 ≤ (f (cGet m k)).2) :
    ctrLEk (cMod f k m) := by
  intro k2
  by_cases hkk : k2 = k
  · rw [hkk, cGet_cMod_self]
    exact hk
  · rw [cGet_cMod_other f k k2 m (fun hc => hkk hc.symm)]
    exact h k2

theorem build_templates_map_objId (taskId : Nat) :
    ∀ (pairs : List (String × String)) (n : Nat),
      (build_templates taskId pairs n).map Tmpl.objId =
        List.range' n pairs.length := by
  intro pairs
  induction pairs with
  | nil => intro n; rfl
  | cons p rest ih =>
    intro n
    obtain ⟨s, d⟩ := p
    rw [build_templates, List.map_cons, ih (n + 1), List.length_cons,
      List.range'_succ]

theorem build_templates_objId_bounds (taskId : Nat)
    (pairs : List (String × String)) (n : Nat) (t : Tmpl)
    (h : t ∈ build_templates taskId pairs n) :
    n ≤ t.objId ∧ t.objId < n + pairs.length := by
  have : t.objId ∈ (build_templates taskId pairs n).map Tmpl.objId :=
    List.mem_map_of_mem _ h
  rw [build_templates_map_objId] at this
  exact ⟨(List.mem_range'_1.1 this).1, (List.mem_range'_1.1 this).2⟩

theorem build_templates_ids_nodup (taskId : Nat)
    (pairs : List (String × String)) (n : Nat) :
    ((build_templates taskId pairs n).map Tmpl.objId).Nodup := by
  rw [build_templates_map_objId]
  exact List.nodup_range' n pairs.length

theorem run_task_parts_skip (task : RTask) :
    ∀ (parts : List (List AttemptData)) (started : Bool) (pl : Nat) (w : World),
      run_task_parts task parts started true pl w = (w, [], true) := by
  intro parts
  induction parts with
  | nil => intro started pl w; rfl
  | cons p rest ih =>
    intro started pl w
    rw [run_task_parts, if_pos rfl]
    exact ih started pl w

theorem handle_readonly_aux_evs (task : RTask) (t : Tmpl) (dctx : DstCtx) :
    (handle_readonly task t dctx).2.all ev_ok = true ∧
    (handle_readonly task t dctx).2.filter is_task_success = [] := by
  rw [handle_readonly]
  split
  · constructor <;>
      (by_cases h1 : (alGet dctx.datasets_readonly (dirname t.dst_dataset)).isSome = true ∧
          alGet dctx.datasets_readonly t.dst_dataset = some false <;>
       by_cases h2 : (alGet (alSet dctx.datasets_readonly t.dst_dataset true)
          (dirname t.dst_dataset)).getD false = false <;>
       simp [h1, h2, ev_ok, ev_counters, is_task_success])
  · constructor <;> rfl

theorem destroy_empty_aux_evs (task : RTask) (a : AttemptData) (st : St) :
    (destroy_empty_encrypted_target task a st).1.ctr = st.ctr ∧
    (destroy_empty_encrypted_target task a st).2.1.all ev_ok = true ∧
    (destroy_empty_encrypted_target task a st).2.1.filter is_task_success = [] := by
  rw [destroy_empty_encrypted_target]
  repeat' split
  all_goals simp [ev_ok, ev_counters, is_task_success]

theorem plan_branch_aux_evs (task : RTask) (t : Tmpl)
    (dst_snapshots : List String) (base : Option String) (ef : List String)
    (is_first : Bool) :
    (plan_branch task t dst_snapshots base ef is_first).1.all ev_ok = true ∧
    (plan_branch task t dst_snapshots base ef is_first).1.filter
      is_task_success = [] := by
  rw [plan_branch]
  repeat' split
  all_goals exact ⟨rfl, rfl⟩

theorem plan_parent_evs_aux (t : Tmpl) (dctx : DstCtx) (is_first : Bool) :
    (plan_parent_evs t dctx is_first).all ev_ok = true ∧
    (plan_parent_evs t dctx is_first).filter is_task_success = [] := by
  rw [plan_parent_evs]
  repeat' split
  all_goals exact ⟨rfl, rfl⟩

theorem run_step_inv (task : RTask) (t : Tmpl) (lbl : String)
    (ib : Option String) (st : St)
    (h1 : keysNodup st.ctr) (h2 : ctrLEk st.ctr)
    (h3 : (cGet st.ctr t.objId).1 < (cGet st.ctr t.objId).2) :
    keysNodup (run_replication_step task t lbl ib st).1.ctr ∧
    ctrLEk (run_replication_step task t lbl ib st).1.ctr ∧
    (run_replication_step task t lbl ib st).2.1.all ev_ok = true ∧
    (run_replication_step task t lbl ib st).2.1.filter is_task_success = [] ∧
    (∀ k, k ≠ t.objId →
      cGet (run_replication_step task t lbl ib st).1.ctr k = cGet st.ctr k) ∧
    ((run_replication_step task t lbl ib st).2.2 = none →
      cGet (run_replication_step task t lbl ib st).1.ctr t.objId =
        ((cGet st.ctr t.objId).1 + 1, (cGet st.ctr t.objId).2)) ∧
    ((run_replication_step task t lbl ib st).2.2 ≠ none →
      (run_replication_step task t lbl ib st).1.ctr = st.ctr) := by
  rcases hno : nextOutcome st.outcomes with ⟨o, orest⟩
  have hsums := sums_le st.ctr h1 h2
  cases o with
  | fail e =>
    simp only [run_replication_step, hno]
    refine ⟨h1, h2, ?_, ?_, ?_, ?_, ?_⟩
    all_goals
      first
        | trivial
        | (simp [ev_ok, ev_counters, hsums])
        | (intro hc; cases hc)
        | (intro k _; rfl)
        | (intro _; rfl)
  | ok =>
    have hk2 : keysNodup (cMod (fun p => (p.1 + 1, p.2)) t.objId st.ctr) :=
      keysNodup_cMod _ _ _ h1
    have hl2 : ctrLEk (cMod (fun p => (p.1 + 1, p.2)) t.objId st.ctr) :=
      ctrLEk_cMod _ _ _ h2 (by simpa using h3)
    have hsums2 := sums_le _ hk2 hl2
    simp only [run_replication_step, hno]
    refine ⟨hk2, hl2, ?_, ?_, ?_, ?_, ?_⟩
    · by_cases hib : ib = none <;>
        simp [hib, List.all_append, ev_ok, ev_counters, hsums, hsums2,
          (handle_readonly_aux_evs task t st.dctx).1]
    · by_cases hib : ib = none <;>
        simp [hib, List.filter_append, is_task_success,
          (handle_readonly_aux_evs task t st.dctx).2]
    · intro k hk
      exact cGet_cMod_other _ _ _ _ (fun hc => hk hc.symm)
    · intro _
      exact cGet_cMod_self _ _ _
    · intro hc
      exact absurd rfl hc

theorem replicate_snapshots_inv (task : RTask) (t : Tmpl) :
    ∀ (snaps : List String) (ib : Option String) (st : St),
      keysNodup st.ctr → ctrLEk st.ctr →
      (cGet st.ctr t.objId).1 + snaps.length ≤ (cGet st.ctr t.objId).2 →
      keysNodup (replicate_snapshots task t ib snaps st).1.ctr ∧
      ctrLEk (replicate_snapshots task t ib snaps st).1.ctr ∧
      (replicate_snapshots task t ib snaps st).2.1.all ev_ok = true ∧
      (replicate_snapshots task t ib snaps st).2.1.filter is_task_success = [] ∧
      (∀ k, k ≠ t.objId →
        cGet (replicate_snapshots task t ib snaps st).1.ctr k = cGet st.ctr k) ∧
      ((replicate_snapshots task t ib snaps st).2.2 = none →
        cGet (replicate_snapshots task t ib snaps st).1.ctr t.objId =
          ((cGet st.ctr t.objId).1 + snaps.length, (cGet st.ctr t.objId).2)) := by
  intro snaps
  induction snaps with
  | nil =>
    intro ib st hN hL hB
    refine ⟨hN, hL, rfl, rfl, fun k _ => rfl, fun _ => ?_⟩
    simp [replicate_snapshots]
  | cons s rest ih =>
    intro ib st hN hL hB
    have hk : (cGet st.ctr t.objId).1 < (cGet st.ctr t.objId).2 := by
      simp only [List.length_cons] at hB
      omega
    obtain ⟨sk, sl, sev, sfl, sother, ssome, sne⟩ :=
      run_step_inv task t s ib st hN hL hk
    rcases herr : (run_replication_step task t s ib st).2.2 with _ | e
    · have hstep := ssome herr
      have hbound : (cGet (run_replication_step task t s ib st).1.ctr t.objId).1 +
          rest.length ≤ (cGet (run_replication_step task t s ib st).1.ctr t.objId).2 := by
        rw [hstep]
        show (cGet st.ctr t.objId).1 + 1 + rest.length ≤ (cGet st.ctr t.objId).2
        simp only [List.length_cons] at hB
        omega
      obtain ⟨rk, rl, rev, rfl2, rother, rsome⟩ :=
        ih (some s) (run_replication_step task t s ib st).1 sk sl hbound
      simp only [replicate_snapshots, herr]
      refine ⟨rk, rl, ?_, ?_, ?_, ?_⟩
      · simp [List.all_append, sev, rev]
      · simp [List.filter_append, sfl, rfl2]
      · intro k hkk
        rw [rother k hkk, sother k hkk]
      · intro hnone
        rw [rsome hnone, hstep, Prod.ext_iff]
        constructor
        · show (cGet st.ctr t.objId).1 + 1 + rest.length =
            (cGet st.ctr t.objId).1 + (s :: rest).length
          simp only [List.length_cons]
          omega
        · rfl
    · simp only [replicate_snapshots, herr]
      refine ⟨sk, sl, sev, sfl, sother, ?_⟩
      intro hc
      cases hc

theorem execute_plan_inv (task : RTask) :
    ∀ (plan : List PlanEntry) (st : St),
      keysNodup st.ctr → ctrLEk st.ctr →
      ((plan.map (fun pe => pe.t.objId)).Nodup) →
      (∀ pe ∈ plan, cGet st.ctr pe.t.objId = (0, pe.snapshots.length)) →
      keysNodup (execute_plan task plan st).1.ctr ∧
      ctrLEk (execute_plan task plan st).1.ctr ∧
      (execute_plan task plan st).2.1.all ev_ok = true ∧
      (execute_plan task plan st).2.1.filter is_task_success = [] ∧
      (∀ k, k ∉ plan.map (fun pe => pe.t.objId) →
        cGet (execute_plan task plan st).1.ctr k = cGet st.ctr k) ∧
      ((execute_plan task plan st).2.2 = none → ∀ pe ∈ plan,
        cGet (execute_plan task plan st).1.ctr pe.t.objId =
          (pe.snapshots.length, pe.snapshots.length)) := by
  intro plan
  induction plan with
  | nil =>
    intro st hN hL _ _
    exact ⟨hN, hL, rfl, rfl, fun k _ => rfl, fun _ pe hpe => absurd hpe (by simp)⟩
  | cons p rest ih =>
    intro st hN hL hnd hini
    have hp0 : cGet st.ctr p.t.objId = (0, p.snapshots.length) :=
      hini p (List.mem_cons_self _ _)
    have hB : (cGet st.ctr p.t.objId).1 + p.snapshots.length ≤
        (cGet st.ctr p.t.objId).2 := by
      rw [hp0]
      show 0 + p.snapshots.length ≤ p.snapshots.length
      omega
    obtain ⟨sk, sl, sev, sfl, sother, ssome⟩ :=
      replicate_snapshots_inv task p.t p.snapshots p.incremental_base st hN hL hB
    rw [List.map_cons] at hnd
    obtain ⟨hnot, hndrest⟩ := List.nodup_cons.1 hnd
    rcases herr : (replicate_snapshots task p.t p.incremental_base p.snapshots st).2.2
        with _ | e
    · have hcnt := ssome herr
      rw [hp0] at hcnt
      have hini2 : ∀ pe ∈ rest,
          cGet (replicate_snapshots task p.t p.incremental_base p.snapshots st).1.ctr
            pe.t.objId = (0, pe.snapshots.length) := by
        intro pe hpe
        rw [sother pe.t.objId (fun hc => hnot (hc ▸ List.mem_map_of_mem _ hpe))]
        exact hini pe (List.mem_cons_of_mem _ hpe)
      obtain ⟨rk, rl, rev, rfl2, rother, rsome⟩ :=
        ih { (replicate_snapshots task p.t p.incremental_base p.snapshots st).1 with
              dctx := (handle_readonly task p.t
                (replicate_snapshots task p.t p.incremental_base p.snapshots st).1.dctx).1 }
          sk sl hndrest hini2
      simp only [execute_plan, herr]
      refine ⟨rk, rl, ?_, ?_, ?_, ?_⟩
      · simp [List.all_append, sev, rev, (handle_readonly_aux_evs task p.t _).1]
      · simp [List.filter_append, sfl, rfl2, (handle_readonly_aux_evs task p.t _).2]
      · intro k hkk
        simp only [List.map_cons, List.mem_cons] at hkk
        push_neg at hkk
        rw [rother k hkk.2, sother k hkk.1]
      · intro hnone pe hpe
        rcases List.mem_cons.1 hpe with rfl | hpe2
        · rw [rother pe.t.objId (fun hc => hnot (by simpa using hc)), hcnt]
          simp
        · exact rsome hnone pe hpe2
    · simp only [execute_plan, herr]
      refine ⟨sk, sl, sev, sfl, ?_, ?_⟩
      · intro k hkk
        simp only [List.map_cons, List.mem_cons] at hkk
        push_neg at hkk
        exact sother k hkk.1
      · intro hc
        cases hc

theorem plan_templates_inv (task : RTask) (sctx : SrcCtx) :
    ∀ (ts : List Tmpl) (ef : List String) (fl : Bool) (ps : PlanSt),
      keysNodup ps.st.ctr → ctrLEk ps.st.ctr →
      ((ts.map Tmpl.objId).Nodup) →
      (∀ t ∈ ts, cGet ps.st.ctr t.objId = (0, 0)) →
      ((ps.plan.map (fun pe => pe.t.objId)).Nodup) →
      (∀ pe ∈ ps.plan, cGet ps.st.ctr pe.t.objId = (0, pe.snapshots.length)) →
      (∀ x ∈ ts.map Tmpl.objId, x ∉ ps.plan.map (fun pe => pe.t.objId)) →
      keysNodup (plan_templates task sctx ts ef fl ps).1.st.ctr ∧
      ctrLEk (plan_templates task sctx ts ef fl ps).1.st.ctr ∧
      (plan_templates task sctx ts ef fl ps).2.1.all ev_ok = true ∧
      (plan_templates task sctx ts ef fl ps).2.1.filter is_task_success = [] ∧
      (((plan_templates task sctx ts ef fl ps).1.plan.map
        (fun pe => pe.t.objId)).Nodup) ∧
      (∀ pe ∈ (plan_templates task sctx ts ef fl ps).1.plan,
        cGet (plan_templates task sctx ts ef fl ps).1.st.ctr pe.t.objId =
          (0, pe.snapshots.length)) ∧
      (∀ k, k ∉ (plan_templates task sctx ts ef fl ps).1.plan.map
          (fun pe => pe.t.objId) →
        cGet (plan_templates task sctx ts ef fl ps).1.st.ctr k = cGet ps.st.ctr k) ∧
      (∀ pe ∈ ps.plan, pe ∈ (plan_templates task sctx ts ef fl ps).1.plan) := by
  intro ts
  induction ts with
  | nil =>
    intro ef fl ps hN hL _ _ hpnd hpini _
    exact ⟨hN, hL, rfl, rfl, hpnd, hpini, fun k _ => rfl, fun pe hpe => hpe⟩
  | cons t rest ih =>
    intro ef fl ps hN hL hnd hts hpnd hpini hdisj
    rw [List.map_cons] at hnd
    obtain ⟨hnot, hndrest⟩ := List.nodup_cons.1 hnd
    have ht0 : cGet ps.st.ctr t.objId = (0, 0) := hts t (List.mem_cons_self _ _)
    have hdisj_rest : ∀ x ∈ rest.map Tmpl.objId,
        x ∉ ps.plan.map (fun pe => pe.t.objId) := by
      intro x hx
      exact hdisj x (by rw [List.map_cons]; exact List.mem_cons_of_mem _ hx)
    rw [plan_templates]
    by_cases hig : (ps.ignored_roots.any fun root => is_child t.src_dataset root) = true
    · simp only [hig, if_true]
      exact ih ef false ps hN hL hndrest
        (fun t2 h2 => hts t2 (List.mem_cons_of_mem _ h2)) hpnd hpini hdisj_rest
    · simp only [hig, Bool.false_eq_true, if_false]
      rcases hbr : (plan_branch task t ((alGet ps.st.dctx.datasets t.dst_dataset).getD [])
          (get_snapshots_to_send ((alGet sctx.datasets t.src_dataset).getD [])
            ((alGet ps.st.dctx.datasets t.dst_dataset).getD []) task).1 ef fl).2 with _ | e
      · simp only [hbr]
        by_cases hempty : (get_snapshots_to_send ((alGet sctx.datasets t.src_dataset).getD [])
            ((alGet ps.st.dctx.datasets t.dst_dataset).getD []) task).2 = []
        · simp only [hempty, if_true]
          obtain ⟨rk, rl, rev, rfl2, rnd, rini, rother, rpres⟩ :=
            ih ef false { ps with ignored_roots :=
              if (alGet sctx.datasets t.src_dataset).getD [] = [] then
                t.src_dataset :: ps.ignored_roots else ps.ignored_roots }
              hN hL hndrest
              (fun t2 h2 => hts t2 (List.mem_cons_of_mem _ h2)) hpnd hpini hdisj_rest
          refine ⟨rk, rl, ?_, ?_, rnd, rini, rother, rpres⟩
          · simp [List.all_append, rev, (plan_branch_aux_evs task t _ _ ef fl).1, hbr]
          · simp [List.filter_append, rfl2, (plan_branch_aux_evs task t _ _ ef fl).2, hbr]
        · simp only [hempty, if_false]
          have hctr2LE : ctrLEk (cMod (fun p => (p.1, p.2 +
              (get_snapshots_to_send ((alGet sctx.datasets t.src_dataset).getD [])
                ((alGet ps.st.dctx.datasets t.dst_dataset).getD []) task).2.length))
              t.objId ps.st.ctr) := by
            refine ctrLEk_cMod _ _ _ hL ?_
            rw [ht0]
            show (0 : Nat) ≤ 0 + _
            omega
          have hctr2N := keysNodup_cMod (fun p => (p.1, p.2 +
              (get_snapshots_to_send ((alGet sctx.datasets t.src_dataset).getD [])
                ((alGet ps.st.dctx.datasets t.dst_dataset).getD []) task).2.length))
              t.objId ps.st.ctr hN
          have hother2 : ∀ k, k ≠ t.objId →
              cGet (cMod (fun p => (p.1, p.2 +
                (get_snapshots_to_send ((alGet sctx.datasets t.src_dataset).getD [])
                  ((alGet ps.st.dctx.datasets t.dst_dataset).getD []) task).2.length))
                t.objId ps.st.ctr) k = cGet ps.st.ctr k := by
            intro k hk
            exact cGet_cMod_other _ _ _ _ (fun hc => hk hc.symm)
          have hself2 : cGet (cMod (fun p => (p.1, p.2 +
              (get_snapshots_to_send ((alGet sctx.datasets t.src_dataset).getD [])
                ((alGet ps.st.dctx.datasets t.dst_dataset).getD []) task).2.length))
              t.objId ps.st.ctr) t.objId =
              (0, (get_snapshots_to_send ((alGet sctx.datasets t.src_dataset).getD [])
                ((alGet ps.st.dctx.datasets t.dst_dataset).getD []) task).2.length) := by
            rw [cGet_cMod_self, ht0]
            show ((0 : Nat), 0 + _) = _
            rw [Nat.zero_add]
          have hnd2 : (((ps.plan ++ [PlanEntry.mk t
              (get_snapshots_to_send ((alGet sctx.datasets t.src_dataset).getD [])
                ((alGet ps.st.dctx.datasets t.dst_dataset).getD []) task).1
              ((get_snapshots_to_send ((alGet sctx.datasets t.src_dataset).getD [])
                ((alGet ps.st.dctx.datasets t.dst_dataset).getD []) task).2)]).map
              (fun pe => pe.t.objId)).Nodup) := by
            rw [List.map_append]
            rw [List.nodup_append]
            refine ⟨hpnd, List.nodup_singleton _, ?_⟩
            intro x hx hx2
            simp only [List.map_cons, List.map_nil, List.mem_singleton] at hx2
            subst hx2
            exact hdisj t.objId (by simp) hx
          obtain ⟨rk, rl, rev, rfl2, rnd, rini, rother, rpres⟩ :=
            ih ef false
              { st := { ps.st with ctr := (cMod (fun p => (p.1, p.2 +
                  (get_snapshots_to_send ((alGet sctx.datasets t.src_dataset).getD [])
                    ((alGet ps.st.dctx.datasets t.dst_dataset).getD []) task).2.length))
                  t.objId ps.st.ctr) },
                ignored_roots := ps.ignored_roots,
                plan := ps.plan ++ [(PlanEntry.mk t
                  ((get_snapshots_to_send ((alGet sctx.datasets t.src_dataset).getD [])
                    ((alGet ps.st.dctx.datasets t.dst_dataset).getD []) task).1)
                  ((get_snapshots_to_send ((alGet sctx.datasets t.src_dataset).getD [])
                    ((alGet ps.st.dctx.datasets t.dst_dataset).getD []) task).2))] }
              hctr2N hctr2LE hndrest
              (fun t2 h2 => by
                rw [hother2 t2.objId (fun hc => hnot (hc ▸ List.mem_map_of_mem _ h2))]
                exact hts t2 (List.mem_cons_of_mem _ h2))
              hnd2
              (fun pe hpe => by
                rcases List.mem_append.1 hpe with hpe1 | hpe1
                · rw [hother2 pe.t.objId (fun hc => hdisj t.objId (by simp)
                    (hc ▸ List.mem_map_of_mem _ hpe1))]
                  exact hpini pe hpe1
                · simp only [List.mem_singleton] at hpe1
                  subst hpe1
                  exact hself2)
              (fun x hx => by
                rw [List.map_append]
                intro hc
                rcases List.mem_append.1 hc with hc1 | hc1
                · exact hdisj_rest x hx hc1
                · simp only [List.map_cons, List.map_nil, List.mem_singleton] at hc1
                  subst hc1
                  exact hnot hx)
          refine ⟨rk, rl, ?_, ?_, rnd, rini, ?_, ?_⟩
          · simp [List.all_append, rev, (plan_branch_aux_evs task t _ _ ef fl).1, hbr,
              (plan_parent_evs_aux t ps.st.dctx fl).1]
          · simp [List.filter_append, rfl2,
              (plan_branch_aux_evs task t _ _ ef fl).2, hbr,
              (plan_parent_evs_aux t ps.st.dctx fl).2]
          · intro k hk
            have hkt : k ≠ t.objId := by
              intro hc
              subst hc
              exact hk (List.mem_map_of_mem (fun pe => pe.t.objId)
                (rpres ((PlanEntry.mk t
                  ((get_snapshots_to_send ((alGet sctx.datasets t.src_dataset).getD [])
                    ((alGet ps.st.dctx.datasets t.dst_dataset).getD []) task).1)
                  ((get_snapshots_to_send ((alGet sctx.datasets t.src_dataset).getD [])
                    ((alGet ps.st.dctx.datasets t.dst_dataset).getD []) task).2)))
                  (List.mem_append.2 (Or.inr (List.mem_singleton.2 rfl)))))
            rw [rother k hk, hother2 k hkt]
          · intro pe hpe
            exact rpres pe (List.mem_append.2 (Or.inl hpe))
      · simp only [hbr]
        refine ⟨hN, hL, ?_, ?_, hpnd, hpini, ?_, ?_⟩
        · simpa [hbr] using (plan_branch_aux_evs task t
            ((alGet ps.st.dctx.datasets t.dst_dataset).getD [])
            (get_snapshots_to_send ((alGet sctx.datasets t.src_dataset).getD [])
              ((alGet ps.st.dctx.datasets t.dst_dataset).getD []) task).1 ef fl).1
        · simpa [hbr] using (plan_branch_aux_evs task t
            ((alGet ps.st.dctx.datasets t.dst_dataset).getD [])
            (get_snapshots_to_send ((alGet sctx.datasets t.src_dataset).getD [])
              ((alGet ps.st.dctx.datasets t.dst_dataset).getD []) task).1 ef fl).2
        · intro k _
          first
            | trivial
            | rfl
        · intro pe hpe
          first
            | trivial
            | exact hpe

theorem plan_templates_plan_subset (task : RTask) (sctx : SrcCtx) :
    ∀ (ts : List Tmpl) (ef : List String) (fl : Bool) (ps : PlanSt),
      ∀ pe ∈ (plan_templates task sctx ts ef fl ps).1.plan,
        pe ∈ ps.plan ∨ pe.t ∈ ts := by
  intro ts
  induction ts with
  | nil => intro ef fl ps pe hpe; exact Or.inl hpe
  | cons t rest ih =>
    intro ef fl ps pe hpe
    rw [plan_templates] at hpe
    by_cases hig : (ps.ignored_roots.any fun root => is_child t.src_dataset root) = true
    · rw [if_pos hig] at hpe
      rcases ih ef false ps pe hpe with h | h
      · exact Or.inl h
      · exact Or.inr (List.mem_cons_of_mem _ h)
    · rw [if_neg hig] at hpe
      rcases hbr : (plan_branch task t ((alGet ps.st.dctx.datasets t.dst_dataset).getD [])
          (get_snapshots_to_send ((alGet sctx.datasets t.src_dataset).getD [])
            ((alGet ps.st.dctx.datasets t.dst_dataset).getD []) task).1 ef fl).2 with _ | e
      · simp only [hbr] at hpe
        by_cases hempty : (get_snapshots_to_send ((alGet sctx.datasets t.src_dataset).getD [])
            ((alGet ps.st.dctx.datasets t.dst_dataset).getD []) task).2 = []
        · rw [if_pos hempty] at hpe
          rcases ih ef false _ pe hpe with h | h
          · exact Or.inl h
          · exact Or.inr (List.mem_cons_of_mem _ h)
        · rw [if_neg hempty] at hpe
          rcases ih ef false _ pe hpe with h | h
          · rcases List.mem_append.1 h with h1 | h1
            · exact Or.inl h1
            · simp only [List.mem_singleton] at h1
              subst h1
              exact Or.inr (List.mem_cons_self _ _)
          · exact Or.inr (List.mem_cons_of_mem _ h)
      · simp only [hbr] at hpe
        exact Or.inl hpe

theorem resume_replications_token_nil (task : RTask) (sctx : SrcCtx) (t : Tmpl)
    (rest : List Tmpl) (st : St) (resumed : Bool)
    (hdst : (alGet st.dctx.datasets t.dst_dataset).isSome = true)
    (htok : ((alGet st.dctx.datasets_receive_resume_tokens t.dst_dataset).getD
      none).isSome = true)
    (hpl : (get_snapshots_to_send ((alGet sctx.datasets t.src_dataset).getD [])
      ((alGet st.dctx.datasets t.dst_dataset).getD []) task).2 = []) :
    resume_replications task (t :: rest) sctx st resumed =
      resume_token_body task sctx t rest st resumed ("unknown snapshot", 1) := by
  rw [resume_replications, if_pos ⟨hdst, htok⟩]
  simp only [hpl]
  rfl

theorem resume_replications_token_cons (task : RTask) (sctx : SrcCtx) (t : Tmpl)
    (rest : List Tmpl) (st : St) (resumed : Bool) (s0 : String) (ss : List String)
    (hdst : (alGet st.dctx.datasets t.dst_dataset).isSome = true)
    (htok : ((alGet st.dctx.datasets_receive_resume_tokens t.dst_dataset).getD
      none).isSome = true)
    (hpl : (get_snapshots_to_send ((alGet sctx.datasets t.src_dataset).getD [])
      ((alGet st.dctx.datasets t.dst_dataset).getD []) task).2 = s0 :: ss) :
    resume_replications task (t :: rest) sctx st resumed =
      resume_token_body task sctx t rest st resumed (s0, ss.length + 1) := by
  rw [resume_replications, if_pos ⟨hdst, htok⟩]
  simp only [hpl]
  rfl

theorem resume_token_inv (task : RTask) (sctx : SrcCtx) (t : Tmpl)
    (rest : List Tmpl) (st : St) (resumed : Bool) (lbl : String) (n : Nat)
    (hn : 1 ≤ n)
    (hN : keysNodup st.ctr) (hL : ctrLEk st.ctr)
    (hnot : t.objId ∉ rest.map Tmpl.objId)
    (ht0 : cGet st.ctr t.objId = (0, 0))
    (htsrest : ∀ t2 ∈ rest, cGet st.ctr t2.objId = (0, 0))
    (IH : ∀ (st2 : St) (resumed2 : Bool),
      keysNodup st2.ctr → ctrLEk st2.ctr →
      (∀ t2 ∈ rest, cGet st2.ctr t2.objId = (0, 0)) →
      keysNodup (resume_replications task rest sctx st2 resumed2).1.ctr ∧
      ctrLEk (resume_replications task rest sctx st2 resumed2).1.ctr ∧
      (resume_replications task rest sctx st2 resumed2).2.1.all ev_ok = true ∧
      (resume_replications task rest sctx st2 resumed2).2.1.filter is_task_success = [] ∧
      (∀ k, k ∉ rest.map Tmpl.objId →
        cGet (resume_replications task rest sctx st2 resumed2).1.ctr k = cGet st2.ctr k) ∧
      ((resume_replications task rest sctx st2 resumed2).2.2.2 = none → ∀ t2 ∈ rest,
        cGet (resume_replications task rest sctx st2 resumed2).1.ctr t2.objId = (0, 0) ∨
        cGet (resume_replications task rest sctx st2 resumed2).1.ctr t2.objId = (1, 1)) ∧
      ((resume_replications task rest sctx st2 resumed2).2.2.2 = none →
        (resume_replications task rest sctx st2 resumed2).2.2.1 = false → ∀ t2 ∈ rest,
        cGet (resume_replications task rest sctx st2 resumed2).1.ctr t2.objId = (0, 0)) ∧
      (resumed2 = true → (resume_replications task rest sctx st2 resumed2).2.2.1 = true)) :
    keysNodup (resume_token_body task sctx t rest st resumed (lbl, n)).1.ctr ∧
    ctrLEk (resume_token_body task sctx t rest st resumed (lbl, n)).1.ctr ∧
    (resume_token_body task sctx t rest st resumed (lbl, n)).2.1.all ev_ok = true ∧
    (resume_token_body task sctx t rest st resumed (lbl, n)).2.1.filter
      is_task_success = [] ∧
    (∀ k, k ∉ (t :: rest).map Tmpl.objId →
      cGet (resume_token_body task sctx t rest st resumed (lbl, n)).1.ctr k =
        cGet st.ctr k) ∧
    ((resume_token_body task sctx t rest st resumed (lbl, n)).2.2.2 = none →
      ∀ t2 ∈ t :: rest,
      cGet (resume_token_body task sctx t rest st resumed (lbl, n)).1.ctr t2.objId =
        (0, 0) ∨
      cGet (resume_token_body task sctx t rest st resumed (lbl, n)).1.ctr t2.objId =
        (1, 1)) ∧
    ((resume_token_body task sctx t rest st resumed (lbl, n)).2.2.2 = none →
      (resume_token_body task sctx t rest st resumed (lbl, n)).2.2.1 = false →
      ∀ t2 ∈ t :: rest,
      cGet (resume_token_body task sctx t rest st resumed (lbl, n)).1.ctr t2.objId =
        (0, 0)) ∧
    (resumed = true →
      (resume_token_body task sctx t rest st resumed (lbl, n)).2.2.1 = true) := by
  have hN1 : keysNodup (cMod (fun p => (p.1, n)) t.objId st.ctr) :=
    keysNodup_cMod _ _ _ hN
  have hL1 : ctrLEk (cMod (fun p => (p.1, n)) t.objId st.ctr) := by
    refine ctrLEk_cMod _ _ _ hL ?_
    rw [ht0]
    show (0 : Nat) ≤ n
    omega
  have hget1 : cGet (cMod (fun p => (p.1, n)) t.objId st.ctr) t.objId = (0, n) := by
    rw [cGet_cMod_self, ht0]
  have hother1 : ∀ k, k ≠ t.objId →
      cGet (cMod (fun p => (p.1, n)) t.objId st.ctr) k = cGet st.ctr k :=
    fun k hk => cGet_cMod_other _ _ _ _ (fun hc => hk hc.symm)
  obtain ⟨sk, sl, sev, sfl, sother, ssome, sne⟩ :=
    run_step_inv task t lbl none
      { st with ctr := cMod (fun p => (p.1, n)) t.objId st.ctr }
      hN1 hL1 (by rw [hget1]; show (0 : Nat) < n; omega)
  rcases herr : (run_replication_step task t lbl none
      { st with ctr := cMod (fun p => (p.1, n)) t.objId st.ctr }).2.2 with _ | e
  · -- resume step succeeded: both counters are set to exactly 1
    have hRt : cGet (run_replication_step task t lbl none
        { st with ctr := cMod (fun p => (p.1, n)) t.objId st.ctr }).1.ctr t.objId =
        (1, n) := by
      rw [ssome herr]
      show ((cGet (cMod (fun p => (p.1, n)) t.objId st.ctr) t.objId).1 + 1,
        (cGet (cMod (fun p => (p.1, n)) t.objId st.ctr) t.objId).2) = (1, n)
      rw [hget1]
    have hN2 : keysNodup (cMod (fun _ => (1, 1)) t.objId
        (run_replication_step task t lbl none
          { st with ctr := cMod (fun p => (p.1, n)) t.objId st.ctr }).1.ctr) :=
      keysNodup_cMod _ _ _ sk
    have hL2 : ctrLEk (cMod (fun _ => (1, 1)) t.objId
        (run_replication_step task t lbl none
          { st with ctr := cMod (fun p => (p.1, n)) t.objId st.ctr }).1.ctr) :=
      ctrLEk_cMod _ _ _ sl (Nat.le_refl 1)
    have hts2 : ∀ t2 ∈ rest, cGet (cMod (fun _ => (1, 1)) t.objId
        (run_replication_step task t lbl none
          { st with ctr := cMod (fun p => (p.1, n)) t.objId st.ctr }).1.ctr)
        t2.objId = (0, 0) := by
      intro t2 h2
      have hne2 : t2.objId ≠ t.objId :=
        fun hc => hnot (hc ▸ List.mem_map_of_mem _ h2)
      rw [cGet_cMod_other _ _ _ _ (fun hc => hne2 hc.symm), sother t2.objId hne2]
      exact (hother1 t2.objId hne2).trans (htsrest t2 h2)
    obtain ⟨rk, rl, rev, rfl2, rother, rok, rz, rmono⟩ :=
      IH ⟨cMod (fun _ => (1, 1)) t.objId
          (run_replication_step task t lbl none
            { st with ctr := cMod (fun p => (p.1, n)) t.objId st.ctr }).1.ctr,
        (run_replication_step task t lbl none
          { st with ctr := cMod (fun p => (p.1, n)) t.objId st.ctr }).1.dctx,
        (run_replication_step task t lbl none
          { st with ctr := cMod (fun p => (p.1, n)) t.objId st.ctr }).1.outcomes⟩
        true hN2 hL2 hts2
    have hkeys : ∀ k, k ≠ t.objId → k ∉ rest.map Tmpl.objId →
        cGet (resume_replications task rest sctx
          ⟨cMod (fun _ => (1, 1)) t.objId
            (run_replication_step task t lbl none
              { st with ctr := cMod (fun p => (p.1, n)) t.objId st.ctr }).1.ctr,
          (run_replication_step task t lbl none
            { st with ctr := cMod (fun p => (p.1, n)) t.objId st.ctr }).1.dctx,
          (run_replication_step task t lbl none
            { st with ctr := cMod (fun p => (p.1, n)) t.objId st.ctr }).1.outcomes⟩
          true).1.ctr k = cGet st.ctr k :=
      fun k hk1 hk2 =>
        (rother k hk2).trans
          ((cGet_cMod_other _ _ _ _ (fun hc => hk1 hc.symm)).trans
            ((sother k hk1).trans (hother1 k hk1)))
    have htself : cGet (resume_replications task rest sctx
        ⟨cMod (fun _ => (1, 1)) t.objId
          (run_replication_step task t lbl none
            { st with ctr := cMod (fun p => (p.1, n)) t.objId st.ctr }).1.ctr,
        (run_replication_step task t lbl none
          { st with ctr := cMod (fun p => (p.1, n)) t.objId st.ctr }).1.dctx,
        (run_replication_step task t lbl none
          { st with ctr := cMod (fun p => (p.1, n)) t.objId st.ctr }).1.outcomes⟩
        true).1.ctr t.objId = (1, 1) :=
      (rother t.objId hnot).trans (cGet_cMod_self _ _ _)
    simp only [resume_token_body, herr]
    refine ⟨rk, rl, ?_, ?_, ?_, ?_, ?_, ?_⟩
    · rw [List.all_append, sev, rev]
      rfl
    · rw [List.filter_append, sfl, rfl2]
      rfl
    · intro k hk
      simp only [List.map_cons, List.mem_cons] at hk
      push_neg at hk
      exact hkeys k hk.1 hk.2
    · intro hnone t2 ht2
      rcases List.mem_cons.1 ht2 with rfl | h2
      · exact Or.inr htself
      · exact rok hnone t2 h2
    · intro _ hfl
      rw [rmono rfl] at hfl
      exact absurd hfl (by decide)
    · intro _
      exact rmono rfl
  · -- resume step failed
    have hnz : (run_replication_step task t lbl none
        { st with ctr := cMod (fun p => (p.1, n)) t.objId st.ctr }).2.2 ≠ none := by
      rw [herr]
      exact fun hc => Option.noConfusion hc
    have hctr_eq := sne hnz
    have hRt0 : cGet (run_replication_step task t lbl none
        { st with ctr := cMod (fun p => (p.1, n)) t.objId st.ctr }).1.ctr t.objId =
        (0, n) := by
      rw [hctr_eq]
      exact hget1
    cases e
    case execErr stdout =>
      by_cases hm : (str_contains stdout "used in the initial send no longer exists" = true ∨
          str_contains stdout "destination has snapshots" = true)
      · -- obsolete token: abort receive, zero the total
        have hN2 : keysNodup (cMod (fun p => (p.1, 0)) t.objId
            (run_replication_step task t lbl none
              { st with ctr := cMod (fun p => (p.1, n)) t.objId st.ctr }).1.ctr) :=
          keysNodup_cMod _ _ _ sk
        have hL2 : ctrLEk (cMod (fun p => (p.1, 0)) t.objId
            (run_replication_step task t lbl none
              { st with ctr := cMod (fun p => (p.1, n)) t.objId st.ctr }).1.ctr) := by
          refine ctrLEk_cMod _ _ _ sl ?_
          rw [hRt0]
        have htz : cGet (cMod (fun p => (p.1, 0)) t.objId
            (run_replication_step task t lbl none
              { st with ctr := cMod (fun p => (p.1, n)) t.objId st.ctr }).1.ctr)
            t.objId = (0, 0) := by
          rw [cGet_cMod_self, hRt0]
        have hts2 : ∀ t2 ∈ rest, cGet (cMod (fun p => (p.1, 0)) t.objId
            (run_replication_step task t lbl none
              { st with ctr := cMod (fun p => (p.1, n)) t.objId st.ctr }).1.ctr)
            t2.objId = (0, 0) := by
          intro t2 h2
          have hne2 : t2.objId ≠ t.objId :=
            fun hc => hnot (hc ▸ List.mem_map_of_mem _ h2)
          rw [cGet_cMod_other _ _ _ _ (fun hc => hne2 hc.symm), hctr_eq]
          exact (hother1 t2.objId hne2).trans (htsrest t2 h2)
        obtain ⟨rk, rl, rev, rfl2, rother, rok, rz, rmono⟩ :=
          IH ⟨cMod (fun p => (p.1, 0)) t.objId
              (run_replication_step task t lbl none
                { st with ctr := cMod (fun p => (p.1, n)) t.objId st.ctr }).1.ctr,
            (run_replication_step task t lbl none
              { st with ctr := cMod (fun p => (p.1, n)) t.objId st.ctr }).1.dctx,
            (run_replication_step task t lbl none
              { st with ctr := cMod (fun p => (p.1, n)) t.objId st.ctr }).1.outcomes⟩
            resumed hN2 hL2 hts2
        have hkeys : ∀ k, k ≠ t.objId → k ∉ rest.map Tmpl.objId →
            cGet (resume_replications task rest sctx
              ⟨cMod (fun p => (p.1, 0)) t.objId
                (run_replication_step task t lbl none
                  { st with ctr := cMod (fun p => (p.1, n)) t.objId st.ctr }).1.ctr,
              (run_replication_step task t lbl none
                { st with ctr := cMod (fun p => (p.1, n)) t.objId st.ctr }).1.dctx,
              (run_replication_step task t lbl none
                { st with ctr := cMod (fun p => (p.1, n)) t.objId st.ctr }).1.outcomes⟩
              resumed).1.ctr k = cGet st.ctr k :=
          fun k hk1 hk2 =>
            (rother k hk2).trans
              ((cGet_cMod_other _ _ _ _ (fun hc => hk1 hc.symm)).trans
                ((hctr_eq ▸ rfl : cGet (run_replication_step task t lbl none
                  { st with ctr := cMod (fun p => (p.1, n)) t.objId st.ctr }).1.ctr k =
                  cGet (cMod (fun p => (p.1, n)) t.objId st.ctr) k).trans
                  (hother1 k hk1)))
        have htself : cGet (resume_replications task rest sctx
            ⟨cMod (fun p => (p.1, 0)) t.objId
              (run_replication_step task t lbl none
                { st with ctr := cMod (fun p => (p.1, n)) t.objId st.ctr }).1.ctr,
            (run_replication_step task t lbl none
              { st with ctr := cMod (fun p => (p.1, n)) t.objId st.ctr }).1.dctx,
            (run_replication_step task t lbl none
              { st with ctr := cMod (fun p => (p.1, n)) t.objId st.ctr }).1.outcomes⟩
            resumed).1.ctr t.objId = (0, 0) :=
          (rother t.objId hnot).trans htz
        simp only [resume_token_body, herr, if_pos hm]
        refine ⟨rk, rl, ?_, ?_, ?_, ?_, ?_, rmono⟩
        · rw [List.all_append, List.all_append, sev, rev]
          rfl
        · rw [List.filter_append, List.filter_append, sfl, rfl2]
          rfl
        · intro k hk
          simp only [List.map_cons, List.mem_cons] at hk
          push_neg at hk
          exact hkeys k hk.1 hk.2
        · intro hnone t2 ht2
          rcases List.mem_cons.1 ht2 with rfl | h2
          · exact Or.inl htself
          · exact rok hnone t2 h2
        · intro hnone hfl t2 ht2
          rcases List.mem_cons.1 ht2 with rfl | h2
          · exact htself
          · exact rz hnone hfl t2 h2
      · -- any other ExecException propagates
        simp only [resume_token_body, herr, if_neg hm]
        refine ⟨sk, sl, sev, sfl, ?_, ?_, ?_, fun h => h⟩
        · intro k hk
          simp only [List.map_cons, List.mem_cons] at hk
          push_neg at hk
          exact (sother k hk.1).trans (hother1 k hk.1)
        · exact fun hc => Option.noConfusion hc
        · exact fun hc => Option.noConfusion hc
    all_goals
      simp only [resume_token_body, herr]
    all_goals
      refine ⟨sk, sl, sev, sfl, ?_, ?_, ?_, fun h => h⟩ <;>
        first
          | (exact fun hc => Option.noConfusion hc)
          | (intro k hk
             simp only [List.map_cons, List.mem_cons] at hk
             push_neg at hk
             exact (sother k hk.1).trans (hother1 k hk.1))

theorem resume_replications_inv (task : RTask) (sctx : SrcCtx) :
    ∀ (ts : List Tmpl) (st : St) (resumed : Bool),
      keysNodup st.ctr → ctrLEk st.ctr →
      ((ts.map Tmpl.objId).Nodup) →
      (∀ t ∈ ts, cGet st.ctr t.objId = (0, 0)) →
      keysNodup (resume_replications task ts sctx st resumed).1.ctr ∧
      ctrLEk (resume_replications task ts sctx st resumed).1.ctr ∧
      (resume_replications task ts sctx st resumed).2.1.all ev_ok = true ∧
      (resume_replications task ts sctx st resumed).2.1.filter is_task_success = [] ∧
      (∀ k, k ∉ ts.map Tmpl.objId →
        cGet (resume_replications task ts sctx st resumed).1.ctr k = cGet st.ctr k) ∧
      ((resume_replications task ts sctx st resumed).2.2.2 = none → ∀ t ∈ ts,
        cGet (resume_replications task ts sctx st resumed).1.ctr t.objId = (0, 0) ∨
        cGet (resume_replications task ts sctx st resumed).1.ctr t.objId = (1, 1)) ∧
      ((resume_replications task ts sctx st resumed).2.2.2 = none →
        (resume_replications task ts sctx st resumed).2.2.1 = false → ∀ t ∈ ts,
        cGet (resume_replications task ts sctx st resumed).1.ctr t.objId = (0, 0)) ∧
      (resumed = true → (resume_replications task ts sctx st resumed).2.2.1 = true) := by
  intro ts
  induction ts with
  | nil =>
    intro st resumed hN hL _ _
    exact ⟨hN, hL, rfl, rfl, fun k _ => rfl,
      fun _ t ht => absurd ht (by simp),
      fun _ _ t ht => absurd ht (by simp), fun h => h⟩
  | cons t rest ih =>
    intro st resumed hN hL hnd hts
    rw [List.map_cons] at hnd
    obtain ⟨hnot, hndrest⟩ := List.nodup_cons.1 hnd
    have ht0 : cGet st.ctr t.objId = (0, 0) := hts t (List.mem_cons_self _ _)
    have htsrest : ∀ t2 ∈ rest, cGet st.ctr t2.objId = (0, 0) :=
      fun t2 h2 => hts t2 (List.mem_cons_of_mem _ h2)
    have IH2 := fun (st2 : St) (r2 : Bool) h1 h2 h4 =>
      ih st2 r2 h1 h2 hndrest h4
    by_cases hdt : ((alGet st.dctx.datasets t.dst_dataset).isSome = true) ∧
        (((alGet st.dctx.datasets_receive_resume_tokens t.dst_dataset).getD
          none).isSome = true)
    · obtain ⟨hdst, htok⟩ := hdt
      rcases hpl : (get_snapshots_to_send ((alGet sctx.datasets t.src_dataset).getD [])
          ((alGet st.dctx.datasets t.dst_dataset).getD []) task).2 with _ | ⟨s0, ss⟩
      · rw [resume_replications_token_nil task sctx t rest st resumed hdst htok hpl]
        exact resume_token_inv task sctx t rest st resumed "unknown snapshot" 1
          (by omega) hN hL hnot ht0 htsrest IH2
      · rw [resume_replications_token_cons task sctx t rest st resumed s0 ss
          hdst htok hpl]
        exact resume_token_inv task sctx t rest st resumed s0 (ss.length + 1)
          (by omega) hN hL hnot ht0 htsrest IH2
    · rw [resume_replications, if_neg hdt]
      obtain ⟨rk, rl, rev, rfl2, rother, rok, rz, rmono⟩ :=
        ih st resumed hN hL hndrest htsrest
      refine ⟨rk, rl, rev, rfl2, ?_, ?_, ?_, rmono⟩
      · intro k hk
        exact rother k (fun hc => hk (List.mem_cons_of_mem _ hc))
      · intro hnone t2 ht2
        rcases List.mem_cons.1 ht2 with rfl | h2
        · rw [rother t2.objId hnot]
          exact Or.inl ht0
        · exact rok hnone t2 h2
      · intro hnone hfl t2 ht2
        rcases List.mem_cons.1 ht2 with rfl | h2
        · rw [rother t2.objId hnot]
          exact ht0
        · exact rz hnone hfl t2 h2

theorem run_replication_steps_inv (task : RTask) (ts : List Tmpl) (sctx : SrcCtx)
    (ef : List String) (st : St)
    (hN : keysNodup st.ctr) (hL : ctrLEk st.ctr)
    (hnd : (ts.map Tmpl.objId).Nodup)
    (hts : ∀ t ∈ ts, cGet st.ctr t.objId = (0, 0)) :
    keysNodup (run_replication_steps task ts sctx ef st).1.ctr ∧
    ctrLEk (run_replication_steps task ts sctx ef st).1.ctr ∧
    (run_replication_steps task ts sctx ef st).2.1.all ev_ok = true ∧
    (run_replication_steps task ts sctx ef st).2.1.filter is_task_success = [] ∧
    (∀ k, k ∉ ts.map Tmpl.objId →
      cGet (run_replication_steps task ts sctx ef st).1.ctr k = cGet st.ctr k) ∧
    ((run_replication_steps task ts sctx ef st).2.2 = none → ∀ k,
      cGet (run_replication_steps task ts sctx ef st).1.ctr k = cGet st.ctr k ∨
      (cGet (run_replication_steps task ts sctx ef st).1.ctr k).1 =
        (cGet (run_replication_steps task ts sctx ef st).1.ctr k).2) := by
  rcases hg : readonly_gate task ts st.dctx with _ | e
  · obtain ⟨pk, pl, pev, pfl, pnd, pini, pother, _⟩ :=
      plan_templates_inv task sctx ts ef true ⟨st, [], []⟩ hN hL hnd hts
        List.nodup_nil (fun pe hpe => absurd hpe (by simp)) (fun x _ => by simp)
    have hsub : ∀ k, k ∉ ts.map Tmpl.objId →
        k ∉ (plan_templates task sctx ts ef true ⟨st, [], []⟩).1.plan.map
          (fun pe => pe.t.objId) := by
      intro k hk hc
      rcases List.mem_map.1 hc with ⟨pe, hpe, hpk⟩
      rcases plan_templates_plan_subset task sctx ts ef true ⟨st, [], []⟩ pe hpe
          with h | h
      · exact absurd h (by simp)
      · exact hk (hpk ▸ List.mem_map_of_mem _ h)
    rcases hpe : (plan_templates task sctx ts ef true ⟨st, [], []⟩).2.2 with _ | e2
    · obtain ⟨ek, el, eev, efl, eother, eok⟩ :=
        execute_plan_inv task (plan_templates task sctx ts ef true ⟨st, [], []⟩).1.plan
          (plan_templates task sctx ts ef true ⟨st, [], []⟩).1.st pk pl pnd pini
      simp only [run_replication_steps, hg, hpe]
      refine ⟨ek, el, ?_, ?_, ?_, ?_⟩
      · rw [List.all_append, pev, eev]
        rfl
      · rw [List.filter_append, pfl, efl]
        rfl
      · intro k hk
        exact (eother k (hsub k hk)).trans (pother k (hsub k hk))
      · intro hnone k
        by_cases hk : k ∈ (plan_templates task sctx ts ef true ⟨st, [], []⟩).1.plan.map
          (fun pe => pe.t.objId)
        · rcases List.mem_map.1 hk with ⟨pe, hpein, hpk⟩
          refine Or.inr ?_
          rw [← hpk, eok hnone pe hpein]
        · by_cases hk2 : k ∈ ts.map Tmpl.objId
          · exact Or.inl ((eother k hk).trans (pother k hk))
          · exact Or.inl ((eother k (hsub k hk2)).trans (pother k (hsub k hk2)))
    · simp only [run_replication_steps, hg, hpe]
      refine ⟨pk, pl, pev, pfl, ?_, fun hc => Option.noConfusion hc⟩
      intro k hk
      exact pother k (hsub k hk)
  · simp only [run_replication_steps, hg]
    refine ⟨hN, hL, ?_, ?_, ?_, fun hc => Option.noConfusion hc⟩ <;>
      first
        | trivial
        | rfl
        | (intro k _
           first
             | trivial
             | rfl)

theorem run_replication_task_part_inv (task : RTask) (a : AttemptData) (w : World)
    (hN : keysNodup w.ctr) (hL : ctrLEk w.ctr)
    (hF : freshFrom w.ctr w.nextId) :
    keysNodup (run_replication_task_part task a w).1.ctr ∧
    ctrLEk (run_replication_task_part task a w).1.ctr ∧
    freshFrom (run_replication_task_part task a w).1.ctr
      (run_replication_task_part task a w).1.nextId ∧
    (run_replication_task_part task a w).2.1.all ev_ok = true ∧
    (run_replication_task_part task a w).2.1.filter is_task_success = [] ∧
    ((run_replication_task_part task a w).2.2 = none → ∀ k,
      cGet (run_replication_task_part task a w).1.ctr k = cGet w.ctr k ∨
      (cGet (run_replication_task_part task a w).1.ctr k).1 =
        (cGet (run_replication_task_part task a w).1.ctr k).2) := by
  rcases hct : check_target_type a with _ | e0
  · have hnd1 : ((build_templates task.id a.listing1.template_pairs w.nextId).map Tmpl.objId).Nodup :=
      build_templates_ids_nodup _ _ _
    have hnotin1 : ∀ k, w.nextId + a.listing1.template_pairs.length ≤ k →
        k ∉ (build_templates task.id a.listing1.template_pairs w.nextId).map Tmpl.objId := by
      intro k hk hc
      rw [build_templates_map_objId] at hc
      have := (List.mem_range'_1.1 hc).2
      omega
    have hnotin2 : ∀ k, w.nextId + a.listing1.template_pairs.length + a.listing2.template_pairs.length ≤ k →
        k ∉ (build_templates task.id a.listing2.template_pairs (w.nextId + a.listing1.template_pairs.length)).map Tmpl.objId := by
      intro k hk hc
      rw [build_templates_map_objId] at hc
      have := (List.mem_range'_1.1 hc).2
      omega
    have hdz := destroy_empty_aux_evs task a (⟨w.ctr, (mk_ctxs a.listing1).2, a.outcomes⟩ : St)
    have hN1 : keysNodup (destroy_empty_encrypted_target task a (⟨w.ctr, (mk_ctxs a.listing1).2, a.outcomes⟩ : St)).1.ctr := by
      rw [hdz.1]
      exact hN
    have hL1 : ctrLEk (destroy_empty_encrypted_target task a (⟨w.ctr, (mk_ctxs a.listing1).2, a.outcomes⟩ : St)).1.ctr := by
      rw [hdz.1]
      exact hL
    have hts1 : ∀ t ∈ build_templates task.id a.listing1.template_pairs w.nextId, cGet (destroy_empty_encrypted_target task a (⟨w.ctr, (mk_ctxs a.listing1).2, a.outcomes⟩ : St)).1.ctr t.objId = (0, 0) := by
      intro t ht
      rw [hdz.1]
      exact hF t.objId (build_templates_objId_bounds _ _ _ t ht).1
    rcases herr1 : (destroy_empty_encrypted_target task a (⟨w.ctr, (mk_ctxs a.listing1).2, a.outcomes⟩ : St)).2.2 with _ | e1
    · obtain ⟨rk, rl, rev, rfl2, rother, rok, rz, rmono⟩ :=
        resume_replications_inv task (mk_ctxs a.listing1).1 (build_templates task.id a.listing1.template_pairs w.nextId) (destroy_empty_encrypted_target task a (⟨w.ctr, (mk_ctxs a.listing1).2, a.outcomes⟩ : St)).1 false
          hN1 hL1 hnd1 hts1
      rcases herr2 : (resume_replications task (build_templates task.id a.listing1.template_pairs w.nextId) (mk_ctxs a.listing1).1 (destroy_empty_encrypted_target task a (⟨w.ctr, (mk_ctxs a.listing1).2, a.outcomes⟩ : St)).1 false).2.2.2 with _ | e2
      · by_cases hres : (resume_replications task (build_templates task.id a.listing1.template_pairs w.nextId) (mk_ctxs a.listing1).1 (destroy_empty_encrypted_target task a (⟨w.ctr, (mk_ctxs a.listing1).2, a.outcomes⟩ : St)).1 false).2.2.1 = true
        · -- something resumed: templates are rebuilt from the second listing
          have hts2 : ∀ t ∈ build_templates task.id a.listing2.template_pairs (w.nextId + a.listing1.template_pairs.length), cGet (resume_replications task (build_templates task.id a.listing1.template_pairs w.nextId) (mk_ctxs a.listing1).1 (destroy_empty_encrypted_target task a (⟨w.ctr, (mk_ctxs a.listing1).2, a.outcomes⟩ : St)).1 false).1.ctr t.objId = (0, 0) := by
            intro t ht
            have hb := build_templates_objId_bounds task.id a.listing2.template_pairs
              (w.nextId + a.listing1.template_pairs.length) t ht
            rw [rother t.objId (hnotin1 t.objId (by omega)), hdz.1]
            exact hF t.objId (by omega)
          obtain ⟨sk2, sl2, sev2, sfl2, sother2, sok2⟩ :=
            run_replication_steps_inv task (build_templates task.id a.listing2.template_pairs (w.nextId + a.listing1.template_pairs.length)) (mk_ctxs a.listing2).1
              a.ensure_fails (⟨(resume_replications task (build_templates task.id a.listing1.template_pairs w.nextId) (mk_ctxs a.listing1).1 (destroy_empty_encrypted_target task a (⟨w.ctr, (mk_ctxs a.listing1).2, a.outcomes⟩ : St)).1 false).1.ctr, (mk_ctxs a.listing2).2, (resume_replications task (build_templates task.id a.listing1.template_pairs w.nextId) (mk_ctxs a.listing1).1 (destroy_empty_encrypted_target task a (⟨w.ctr, (mk_ctxs a.listing1).2, a.outcomes⟩ : St)).1 false).1.outcomes⟩ : St) rk rl (build_templates_ids_nodup _ _ _) hts2
          dsimp only [] at sother2 sok2
          simp only [run_replication_task_part, hct, herr1, herr2, hres,
            eq_self_iff_true, if_true]
          refine ⟨sk2, sl2, ?_, ?_, ?_, ?_⟩
          · intro k hk
            rw [sother2 k (hnotin2 k (by omega)),
              rother k (hnotin1 k (by omega)), hdz.1]
            exact hF k (by omega)
          · rw [List.all_append, List.all_append, hdz.2.1, rev, sev2]
            rfl
          · rw [List.filter_append, List.filter_append, hdz.2.2, rfl2, sfl2]
            rfl
          · intro hnone k
            rcases sok2 hnone k with hcase | hcase
            · by_cases hk1 : k ∈ (build_templates task.id a.listing1.template_pairs w.nextId).map Tmpl.objId
              · rcases List.mem_map.1 hk1 with ⟨t, htmem, rfl⟩
                refine Or.inr ?_
                rcases rok herr2 t htmem with hv | hv <;> rw [hcase, hv]
              · refine Or.inl ?_
                rw [hcase, rother k hk1, hdz.1]
            · exact Or.inr hcase
        · -- nothing resumed: the templates of the first listing are replicated
          have hfl : (resume_replications task (build_templates task.id a.listing1.template_pairs w.nextId) (mk_ctxs a.listing1).1 (destroy_empty_encrypted_target task a (⟨w.ctr, (mk_ctxs a.listing1).2, a.outcomes⟩ : St)).1 false).2.2.1 = false := Bool.eq_false_iff.mpr hres
          have hts1b : ∀ t ∈ build_templates task.id a.listing1.template_pairs w.nextId, cGet (resume_replications task (build_templates task.id a.listing1.template_pairs w.nextId) (mk_ctxs a.listing1).1 (destroy_empty_encrypted_target task a (⟨w.ctr, (mk_ctxs a.listing1).2, a.outcomes⟩ : St)).1 false).1.ctr t.objId = (0, 0) :=
            rz herr2 hfl
          obtain ⟨sk2, sl2, sev2, sfl2, sother2, sok2⟩ :=
            run_replication_steps_inv task (build_templates task.id a.listing1.template_pairs w.nextId) (mk_ctxs a.listing1).1
              a.ensure_fails (resume_replications task (build_templates task.id a.listing1.template_pairs w.nextId) (mk_ctxs a.listing1).1 (destroy_empty_encrypted_target task a (⟨w.ctr, (mk_ctxs a.listing1).2, a.outcomes⟩ : St)).1 false).1 rk rl hnd1 hts1b
          simp only [run_replication_task_part, hct, herr1, herr2, hfl,
            Bool.false_eq_true, if_false]
          refine ⟨sk2, sl2, ?_, ?_, ?_, ?_⟩
          · intro k hk
            rw [sother2 k (hnotin1 k (by omega)),
              rother k (hnotin1 k (by omega)), hdz.1]
            exact hF k (by omega)
          · rw [List.all_append, List.all_append, hdz.2.1, rev, sev2]
            rfl
          · rw [List.filter_append, List.filter_append, hdz.2.2, rfl2, sfl2]
            rfl
          · intro hnone k
            rcases sok2 hnone k with hcase | hcase
            · by_cases hk1 : k ∈ (build_templates task.id a.listing1.template_pairs w.nextId).map Tmpl.objId
              · rcases List.mem_map.1 hk1 with ⟨t, htmem, rfl⟩
                refine Or.inr ?_
                rcases hts1b t htmem with hv
                rw [hcase, hv]
              · refine Or.inl ?_
                rw [hcase, rother k hk1, hdz.1]
            · exact Or.inr hcase
      · -- a resume failure propagates out of the part
        simp only [run_replication_task_part, hct, herr1, herr2]
        refine ⟨rk, rl, ?_, ?_, ?_, ?_⟩
        · intro k hk
          rw [rother k (hnotin1 k (by omega)), hdz.1]
          exact hF k (by omega)
        · rw [List.all_append, hdz.2.1, rev]
          rfl
        · rw [List.filter_append, hdz.2.2, rfl2]
          rfl
        · exact fun hc => Option.noConfusion hc
    · -- empty-encrypted-target disposal failed
      simp only [run_replication_task_part, hct, herr1]
      refine ⟨hN1, hL1, ?_, ?_, ?_, ?_⟩
      · intro k hk
        rw [hdz.1]
        exact hF k (by omega)
      · exact hdz.2.1
      · exact hdz.2.2
      · exact fun hc => Option.noConfusion hc
  · -- target-type check failed
    simp only [run_replication_task_part, hct]
    refine ⟨hN, hL, hF, ?_, ?_, ?_⟩ <;>
      first
        | trivial
        | rfl
        | exact fun hc => Option.noConfusion hc

theorem retry_go_inv (body : Nat → World → World × List Ev × Option Err)
    (taskId : Nat)
    (hbody : ∀ (i : Nat) (w2 : World), keysNodup w2.ctr → ctrLEk w2.ctr →
      freshFrom w2.ctr w2.nextId →
      keysNodup (body i w2).1.ctr ∧ ctrLEk (body i w2).1.ctr ∧
      freshFrom (body i w2).1.ctr (body i w2).1.nextId ∧
      (body i w2).2.1.all ev_ok = true ∧
      (body i w2).2.1.filter is_task_success = [] ∧
      ((body i w2).2.2 = none → ∀ k,
        cGet (body i w2).1.ctr k = cGet w2.ctr k ∨
        (cGet (body i w2).1.ctr k).1 = (cGet (body i w2).1.ctr k).2)) :
    ∀ (fuel attempt : Nat) (recov_err : Option String) (recov_sleep : Nat)
      (w : World),
      keysNodup w.ctr → ctrLEk w.ctr → freshFrom w.ctr w.nextId →
      keysNodup (retry_go body taskId attempt fuel recov_err recov_sleep w).1.ctr ∧
      ctrLEk (retry_go body taskId attempt fuel recov_err recov_sleep w).1.ctr ∧
      freshFrom (retry_go body taskId attempt fuel recov_err recov_sleep w).1.ctr
        (retry_go body taskId attempt fuel recov_err recov_sleep w).1.nextId ∧
      (retry_go body taskId attempt fuel recov_err recov_sleep w).2.1.all
        ev_ok = true ∧
      (retry_go body taskId attempt fuel recov_err recov_sleep w).2.1.filter
        is_task_success = [] ∧
      (recov_err ≠ none →
        (retry_go body taskId attempt fuel recov_err recov_sleep w).2.2 = .okPart →
        (retry_go body taskId attempt fuel recov_err recov_sleep w).2.1.filter
          is_sleep ≠ []) ∧
      ((retry_go body taskId attempt fuel recov_err recov_sleep w).2.2 = .okPart →
        (retry_go body taskId attempt fuel recov_err recov_sleep w).2.1.filter
          is_sleep = [] → ∀ k,
        cGet (retry_go body taskId attempt fuel recov_err recov_sleep w).1.ctr k =
          cGet w.ctr k ∨
        (cGet (retry_go body taskId attempt fuel recov_err recov_sleep w).1.ctr k).1 =
          (cGet (retry_go body taskId attempt fuel recov_err recov_sleep w).1.ctr k).2) := by
  intro fuel
  induction fuel with
  | zero =>
    intro attempt recov_err recov_sleep w hN hL hF
    refine ⟨hN, hL, hF, ?_, ?_, ?_, ?_⟩
    · simp [retry_go, ev_ok, ev_counters, sums_le w.ctr hN hL]
    · rfl
    · exact fun _ hok => PartResult.noConfusion hok
    · exact fun hok => PartResult.noConfusion hok
  | succ n ih =>
    intro attempt recov_err recov_sleep w hN hL hF
    obtain ⟨bk, bl, bf, bev, bfl, bok⟩ := hbody attempt w hN hL hF
    rcases recov_err with _ | msg0
    · -- no previous recoverable failure: no sleep before this attempt
      rcases hbr : (body attempt w).2.2 with _ | e
      · simp only [retry_go, hbr, List.nil_append]
        refine ⟨bk, bl, bf, bev, bfl, ?_, ?_⟩
        · exact fun hc _ => absurd rfl hc
        · intro _ _ k
          exact bok hbr k
      · rcases hcl : classify e with ⟨msg, closed⟩ | m | m
        · obtain ⟨rk, rl, rf, rev, rfl2, rsl, _⟩ :=
            ih (attempt + 1) (some msg) 1 (body attempt w).1 bk bl bf
          simp only [retry_go, hbr, hcl, List.nil_append]
          refine ⟨rk, rl, rf, ?_, ?_, ?_, ?_⟩
          · by_cases hc : closed = true <;>
              simp [hc, List.all_append, bev, rev, ev_ok, ev_counters]
          · by_cases hc : closed = true <;>
              simp [hc, List.filter_append, bfl, rfl2, is_task_success]
          · exact fun hc _ => absurd rfl hc
          · intro hok hsl
            exfalso
            simp only [List.filter_append, List.append_eq_nil] at hsl
            exact rsl (fun hc => Option.noConfusion hc) hok hsl.2
        · simp only [retry_go, hbr, hcl, List.nil_append]
          refine ⟨bk, bl, bf, ?_, ?_, ?_, ?_⟩
          · simp [List.all_append, bev, ev_ok, ev_counters,
              sums_le _ bk bl]
          · simp [List.filter_append, bfl, is_task_success]
          · exact fun hc _ => absurd rfl hc
          · exact fun hok => PartResult.noConfusion hok
        · simp only [retry_go, hbr, hcl, List.nil_append]
          refine ⟨bk, bl, bf, ?_, ?_, ?_, ?_⟩
          · simp [List.all_append, bev, ev_ok, ev_counters,
              sums_le _ bk bl]
          · simp [List.filter_append, bfl, is_task_success]
          · exact fun hc _ => absurd rfl hc
          · exact fun hok => PartResult.noConfusion hok
    · -- a previous recoverable failure: sleep, then retry
      rcases hbr : (body attempt w).2.2 with _ | e
      · simp only [retry_go, hbr]
        refine ⟨bk, bl, bf, ?_, ?_, ?_, ?_⟩
        · simp [List.all_append, bev, ev_ok, ev_counters]
        · simp [List.filter_append, bfl, is_task_success]
        · intro _ _
          simp [List.filter_append, is_sleep]
        · intro _ hsl
          exfalso
          simp [List.filter_append, is_sleep] at hsl
      · rcases hcl : classify e with ⟨msg, closed⟩ | m | m
        · obtain ⟨rk, rl, rf, rev, rfl2, rsl, _⟩ :=
            ih (attempt + 1) (some msg) (min (recov_sleep * 2) 60)
              (body attempt w).1 bk bl bf
          simp only [retry_go, hbr, hcl]
          refine ⟨rk, rl, rf, ?_, ?_, ?_, ?_⟩
          · by_cases hc : closed = true <;>
              simp [hc, List.all_append, bev, rev, ev_ok, ev_counters]
          · by_cases hc : closed = true <;>
              simp [hc, List.filter_append, bfl, rfl2, is_task_success]
          · intro _ _
            simp [List.filter_append, is_sleep]
          · intro _ hsl
            exfalso
            simp [List.filter_append, is_sleep] at hsl
        · simp only [retry_go, hbr, hcl]
          refine ⟨bk, bl, bf, ?_, ?_, ?_, ?_⟩
          · simp [List.all_append, bev, ev_ok, ev_counters,
              sums_le _ bk bl]
          · simp [List.filter_append, bfl, is_task_success]
          · exact fun _ hok => PartResult.noConfusion hok
          · exact fun hok => PartResult.noConfusion hok
        · simp only [retry_go, hbr, hcl]
          refine ⟨bk, bl, bf, ?_, ?_, ?_, ?_⟩
          · simp [List.all_append, bev, ev_ok, ev_counters,
              sums_le _ bk bl]
          · simp [List.filter_append, bfl, is_task_success]
          · exact fun _ hok => PartResult.noConfusion hok
          · exact fun hok => PartResult.noConfusion hok

theorem no_task_success_of_filter (l : List Ev)
    (h : l.filter is_task_success = []) (tid s t2 : Nat) :
    Ev.taskSuccess tid s t2 ∉ l := by
  intro hmem
  have := List.filter_eq_nil_iff.1 h _ hmem
  simp [is_task_success] at this

theorem run_task_parts_inv (task : RTask) :
    ∀ (parts : List (List AttemptData)) (started failed : Bool) (pl : Nat)
      (w : World),
      keysNodup w.ctr → ctrLEk w.ctr → freshFrom w.ctr w.nextId →
      keysNodup (run_task_parts task parts started failed pl w).1.ctr ∧
      ctrLEk (run_task_parts task parts started failed pl w).1.ctr ∧
      freshFrom (run_task_parts task parts started failed pl w).1.ctr
        (run_task_parts task parts started failed pl w).1.nextId ∧
      (run_task_parts task parts started failed pl w).2.1.all ev_ok = true ∧
      (ctrEQk w.ctr →
        (run_task_parts task parts started failed pl w).2.1.filter is_sleep = [] →
        ∀ s t2, Ev.taskSuccess task.id s t2 ∈
          (run_task_parts task parts started failed pl w).2.1 → s = t2) := by
  intro parts
  induction parts with
  | nil =>
    intro started failed pl w hN hL hF
    exact ⟨hN, hL, hF, rfl, fun _ _ s t2 hmem => absurd hmem (List.not_mem_nil _)⟩
  | cons attempts rest ih =>
    intro started failed pl w hN hL hF
    by_cases hfail : failed = true
    · subst hfail
      rw [run_task_parts_skip]
      exact ⟨hN, hL, hF, rfl, fun _ _ s t2 hmem => absurd hmem (List.not_mem_nil _)⟩
    · have hfl : failed = false := Bool.eq_false_iff.mpr hfail
      subst hfl
      obtain ⟨gk, gl, gf, gev, gfl, gsl, gok⟩ :=
        retry_go_inv (fun i w2 => run_replication_task_part task
            (attempts.getD i default) w2) task.id
          (fun i w2 h1 h2 h3 =>
            run_replication_task_part_inv task (attempts.getD i default) w2 h1 h2 h3)
          task.retries 0 none 1 w hN hL hF
      have hstart_ok : (if started then ([] : List Ev)
          else [.taskStart task.id (sentSum w.ctr) (totalSum w.ctr)]).all ev_ok = true := by
        cases started <;> simp [ev_ok, ev_counters, sums_le w.ctr hN hL]
      have hstart_nosucc : ∀ s t2, Ev.taskSuccess task.id s t2 ∉
          (if started then ([] : List Ev)
            else [.taskStart task.id (sentSum w.ctr) (totalSum w.ctr)]) := by
        intro s t2
        cases started <;> simp
      rcases hres : (retry_go (fun i w2 => run_replication_task_part task
          (attempts.getD i default) w2) task.id 0 task.retries none 1 w).2.2 with _ | _
      · -- the part succeeded
        obtain ⟨rk2, rl2, rf2, rev2, rsq2⟩ :=
          ih true false (pl - 1)
            (retry_go (fun i w2 => run_replication_task_part task
              (attempts.getD i default) w2) task.id 0 task.retries none 1 w).1
            gk gl gf
        have hsucc_ok : (if pl - 1 = 0 then
            [Ev.taskSuccess task.id
              (sentSum (retry_go (fun i w2 => run_replication_task_part task
                (attempts.getD i default) w2) task.id 0 task.retries none 1 w).1.ctr)
              (totalSum (retry_go (fun i w2 => run_replication_task_part task
                (attempts.getD i default) w2) task.id 0 task.retries none 1 w).1.ctr)]
            else []).all ev_ok = true := by
          by_cases hpl : pl - 1 = 0
          · rw [if_pos hpl]
            simp only [List.all_cons, List.all_nil, ev_ok, ev_counters,
              Bool.and_true, decide_eq_true_eq]
            exact sums_le _ gk gl
          · rw [if_neg hpl]
            rfl
        simp only [run_task_parts, Bool.false_eq_true, if_false, hres]
        refine ⟨rk2, rl2, rf2, ?_, ?_⟩
        · simp only [List.all_append, hstart_ok, gev, hsucc_ok, rev2,
            Bool.and_true, Bool.true_and]
        · intro hEQ hsl s t2 hmem
          simp only [List.filter_append, List.append_eq_nil] at hsl
          have hslr : (retry_go (fun i w2 => run_replication_task_part task
              (attempts.getD i default) w2) task.id 0 task.retries none 1
              w).2.1.filter is_sleep = [] := hsl.1.1.2
          have hEQr : ctrEQk (retry_go (fun i w2 => run_replication_task_part task
              (attempts.getD i default) w2) task.id 0 task.retries none 1 w).1.ctr := by
            intro k
            rcases gok hres hslr k with h | h
            · rw [h]
              exact hEQ k
            · exact h
          rcases List.mem_append.1 hmem with hmem1 | hmem4
          · rcases List.mem_append.1 hmem1 with hmem2 | hmem3
            · rcases List.mem_append.1 hmem2 with hmema | hmemb
              · exact absurd hmema (hstart_nosucc s t2)
              · exact absurd hmemb (no_task_success_of_filter _ gfl task.id s t2)
            · by_cases hpl : pl - 1 = 0
              · rw [if_pos hpl] at hmem3
                have heq := List.mem_singleton.1 hmem3
                injection heq with h1 h2 h3
                rw [h2, h3]
                exact sums_eq _ gk hEQr
              · rw [if_neg hpl] at hmem3
                exact absurd hmem3 (by simp)
          · exact rsq2 hEQr hsl.2 s t2 hmem4
      · -- the part failed: the remaining parts are skipped
        simp only [run_task_parts, Bool.false_eq_true, if_false, hres,
          run_task_parts_skip]
        refine ⟨gk, gl, gf, ?_, ?_⟩
        · simp only [List.all_append, hstart_ok, gev, List.all_nil,
            Bool.and_true, Bool.true_and]
        · intro hEQ hsl s t2 hmem
          rcases List.mem_append.1 hmem with hmem1 | hmem2
          · rcases List.mem_append.1 hmem1 with hmema | hmemb
            · exact absurd hmema (hstart_nosucc s t2)
            · exact absurd hmemb (no_task_success_of_filter _ gfl task.id s t2)
          · exact absurd hmem2 (by simp)

/-- Task of the C6 counterexample scenario: three parseable snapshots and
two retries. -/
def c6_task : RTask where
  id := 7
  parse_name := fun n => if n = "s1" then some 1 else if n = "s2" then some 2
    else if n = "s3" then some 3 else none
  should_replicate_parsed := fun _ => true
  retention_policy := fun _ _ _ => []
  allow_from_scratch := true
  readonly := .ignore
  retries := 2
  encryption := false

/-- First attempt of the C6 scenario: two snapshots to send from scratch;
the first send succeeds, the second fails with an `IOError`. -/
def c6_attempt1 : AttemptData where
  src_type := "filesystem"
  dst_type := none
  root_dst := "b/d"
  enc_supported := false
  encryption_prop := "off"
  encryptionroot_prop := ""
  mounted := false
  has_data := false
  listing1 := ⟨[("t/d", ["s1", "s2"])], [], [], [], [("t/d", "b/d")]⟩
  listing2 := ⟨[], [], [], [], []⟩
  ensure_fails := []
  outcomes := [.ok, .fail (.ioErr "boom")]

/-- Second attempt of the C6 scenario: the destination now holds the first
snapshot, and the remaining incremental send succeeds. -/
def c6_attempt2 : AttemptData where
  src_type := "filesystem"
  dst_type := none
  root_dst := "b/d"
  enc_supported := false
  encryption_prop := "off"
  encryptionroot_prop := ""
  mounted := false
  has_data := false
  listing1 := ⟨[("t/d", ["s1", "s2"])], [("b/d", ["s1"])], [],
    [("b/d", none)], [("t/d", "b/d")]⟩
  listing2 := ⟨[], [], [], [], []⟩
  ensure_fails := []
  outcomes := [.ok]

/-- C6 counterexample: after a recoverable failure and a retry, the
`TaskSuccess` event of a successful run reports `snapshots_sent = 2` but
`snapshots_total = 3` — the first attempt's counter entry keeps
`sent=1, total=2` while the retry's freshly built template contributes
`(1, 1)` — so the two global sums are not equal at `TaskSuccess`. -/
theorem c6_equality_at_task_success_fails :
    Ev.taskSuccess 7 2 3 ∈ (run_task c6_task [[c6_attempt1, c6_attempt2]]).2.1 ∧
    (2 : Nat) ≠ 3 := by
  constructor
  · decide
  · decide

/-- C6: every observer event emitted during a task's run records
`snapshots_sent ≤ snapshots_total`; and if no retry occurred during the run
(the trace carries no sleep event), every `TaskSuccess` event of the run
records equal sums.  (The original claim's unconditional equality at
`TaskSuccess` is refuted by `c6_equality_at_task_success_fails`.) -/
theorem c6_progress_invariant (task : RTask) (parts : List (List AttemptData)) :
    (run_task task parts).2.1.all ev_ok = true ∧
    ((run_task task parts).2.1.filter is_sleep = [] →
      ∀ s t2, Ev.taskSuccess task.id s t2 ∈ (run_task task parts).2.1 →
        s = t2) := by
  obtain ⟨_, _, _, hev, hsq⟩ :=
    run_task_parts_inv task parts false false parts.length ⟨[], 0⟩
      (by simp [keysNodup]) (fun k => Nat.le_refl 0) (fun k _ => rfl)
  exact ⟨hev, hsq (fun k => rfl)⟩

/-- C6 witness: a one-part run with no retry, whose `TaskSuccess` event
records `0 = 0`. -/
theorem c6_progress_invariant_witness :
    (run_task base_task [[(default : AttemptData)]]).2.1.filter is_sleep = [] ∧
    Ev.taskSuccess 1 0 0 ∈ (run_task base_task [[(default : AttemptData)]]).2.1 ∧
    (0 : Nat) = 0 :=
  ⟨by decide, by decide,
   (c6_progress_invariant base_task [[(default : AttemptData)]]).2
     (by decide) 0 0 (by decide)⟩

end Zettarepl
